import Mathlib

/-!
Shallow embedding of the Braintree-mirroring Django app (`sample/bt`).

The database is a record of lists of rows; Django manager calls become pure
functions threading the database; a call into the Braintree gateway client is
modelled by a `Gateway` record of pure functions where `none` models the call
raising; every operation additionally returns the list of observable side
effects (gateway calls, sentry captures, log lines) it performed.  A Python
exception is an `Except` error value; because Django runs these methods without
a transaction, an operation that raises still returns the database with the
writes made before the raise.
-/

namespace BT

/-- Python exceptions that the `sample/bt` code can raise or catch. -/
inductive PyExc where
  | objectDoesNotExist
  | multipleObjectsReturned
  | gatewayError
  deriving DecidableEq, Repr

/-- The two modifier kinds handled generically by `Subscription._set_item`:
`AddOn` rows versus `Discount` rows (the `isinstance(item, AddOn)` branch). -/
inductive ItemKind where
  | addOn
  | discount
  deriving DecidableEq, Repr

/-- `f"{item_key}"` of `Subscription._set_item`: the related-field name. -/
def ItemKind.key : ItemKind → String
  | .addOn => "add_on"
  | .discount => "discount"

/-- A local `AddOn` or `Discount` template row (`plan.py`): `_set_item` reads
only `item.id` and `item.amount` from it.  Decimal amounts are scaled
integers. -/
structure ItemRef where
  id : String
  amount : Int
  deriving DecidableEq, Repr

/-- A `SubscriptionAddOn` / `SubscriptionDiscount` row
(`BaseModifierInstanceModel`): auto primary key `pk`, foreign keys
`subscription` and `item` (the `add_on`/`discount` column), plus the
`BaseModifierModel` + `QuantityModel` + billing-cycle fields. -/
structure ModRow where
  pk : Nat
  subscription : String
  item : String
  quantity : Nat
  amount : Int
  current_billing_cycle : Nat
  never_expires : Bool
  name : String
  number_of_billing_cycles : Option Nat
  deriving DecidableEq, Repr

/-- The scalar fields the `Subscription` sync copies verbatim from the remote
object (`get_default_fields`: every concrete field except
`DEFAULT_FIELDS_EXCLUDED = (id, add_ons, discounts, payment_method, plan)`).
Dates and datetimes are day/second numbers, decimals are scaled integers. -/
structure SubDefaults where
  balance : Int
  status : String
  billing_period_end_date : Int
  billing_period_start_date : Int
  days_past_due : Option Int
  failure_count : Int
  first_billing_date : Int
  merchant_account_id : String
  next_billing_date : Int
  next_billing_period_amount : Int
  paid_through_date : Option Int
  price : Int
  description : Option String
  billing_day_of_month : Option Nat
  trial_duration : Option Nat
  trial_duration_unit : Option String
  trial_period : Bool
  never_expires : Bool
  number_of_billing_cycles : Option Nat
  created_at : Int
  updated_at : Int
  deriving DecidableEq, Repr

/-- A local `Subscription` row: primary key `id` (a gateway identifier),
foreign keys `payment_method` (a `CreditCard` token, nullable) and `plan`,
the billing-cycle counter, and the copied scalar fields. -/
structure SubRow where
  id : String
  payment_method : Option String
  plan : String
  current_billing_cycle : Nat
  defaults : SubDefaults
  deriving DecidableEq, Repr

/-- The scalar fields `CreditCard` sync copies verbatim from the remote object
(`get_default_fields` with `DEFAULT_FIELDS_EXCLUDED = (id, billing_address,
customer, token)`). -/
structure CCDefaults where
  bin : String
  card_type : String
  cardholder_name : Option String
  commercial : String
  country_of_issuance : String
  customer_location : String
  debit : String
  card_default : Bool
  expiration_date : String
  expiration_month : String
  expiration_year : String
  expired : Bool
  healthcare : String
  image_url : String
  issuing_bank : String
  last_4 : String
  masked_number : String
  payroll : String
  prepaid : String
  unique_number_identifier : String
  created_at : Int
  updated_at : Int
  deriving DecidableEq, Repr

/-- A local `CreditCard` row: primary key `token` (the gateway token),
foreign keys `customer` and nullable `billing_address`, and copied fields. -/
structure CCRow where
  token : String
  customer_id : String
  billing_address : Option String
  defaults : CCDefaults
  deriving DecidableEq, Repr

/-- A local `Plan` row; `SubscriptionManager` only ever reads its `id`
(`Plan.objects.get(id=remote_obj.plan_id)`). -/
structure PlanRow where
  id : String
  deriving DecidableEq, Repr

/-- Modelled from the spec: `sample/bt/models/customer.py` is not under the
sources provided; per spec section 2/3 a `Customer` row is keyed by the
gateway identifier with descriptive fields copied verbatim (bundled here as
one opaque `fields` string). -/
structure CustomerRow where
  id : String
  fields : String
  deriving DecidableEq, Repr

/-- Modelled from the spec: an `Address` row keyed by the gateway identifier
with copied descriptive fields. -/
structure AddressRow where
  id : String
  fields : String
  deriving DecidableEq, Repr

/-- The whole local relational state.  Modifier rows get their `AutoField`
primary keys from the single counter `next_auto_id`. -/
structure DB where
  plans : List PlanRow
  customers : List CustomerRow
  addresses : List AddressRow
  credit_cards : List CCRow
  subscriptions : List SubRow
  subscription_add_ons : List ModRow
  subscription_discounts : List ModRow
  next_auto_id : Nat
  deriving DecidableEq, Repr

/-- The modifier table selected by `_set_item`'s `isinstance` branch. -/
def DB.modRows (db : DB) : ItemKind → List ModRow
  | .addOn => db.subscription_add_ons
  | .discount => db.subscription_discounts

/-- Replace the modifier table selected by a kind. -/
def DB.setModRows (db : DB) (k : ItemKind) (rows : List ModRow) : DB :=
  match k with
  | .addOn => { db with subscription_add_ons := rows }
  | .discount => { db with subscription_discounts := rows }

/-- A modifier entry of a remote subscription payload (`remote_obj.add_ons`
and `remote_obj.discounts` in `SubscriptionManager`). -/
structure RemoteModifier where
  id : String
  amount : Int
  current_billing_cycle : Nat
  name : String
  never_expires : Bool
  number_of_billing_cycles : Option Nat
  quantity : Nat
  deriving DecidableEq, Repr

/-- A remote `Subscription` object as returned by the gateway. -/
structure RemoteSubscription where
  id : String
  payment_method_token : String
  plan_id : String
  current_billing_cycle : Nat
  add_ons : List RemoteModifier
  discounts : List RemoteModifier
  defaults : SubDefaults
  deriving DecidableEq, Repr

/-- Modelled from the spec: a remote `Address` object (the `customer.py`
module that declares `Address` is not under the provided sources). -/
structure RemoteAddress where
  id : String
  fields : String
  deriving DecidableEq, Repr

/-- Modelled from the spec: a remote `Customer` object. -/
structure RemoteCustomer where
  id : String
  fields : String
  deriving DecidableEq, Repr

/-- A remote `CreditCard` object as returned by the gateway. -/
structure RemoteCreditCard where
  token : String
  customer_id : String
  billing_address : Option RemoteAddress
  defaults : CCDefaults
  deriving DecidableEq, Repr

/-- The update payload `_set_item` / `remove_add_on` / `remove_discount` send
to `gateway.subscription.update`: `modify` is the dict
`(item_key + "s") : (mod_str : [(id_str : item.id, "quantity": quantity)])`,
`removeItem` is the dict `(item_key + "s") : ("remove" : [item.id])`. -/
inductive SubUpdatePayload where
  | modify (item_keys mod_str id_str item_id : String) (quantity : Nat)
  | removeItem (item_keys item_id : String)
  deriving DecidableEq, Repr

/-- The Braintree gateway client, as a record of pure functions; `none`
models the underlying call raising an exception. -/
structure Gateway where
  subscription_find : String → Option RemoteSubscription
  subscription_update : String → SubUpdatePayload → Option Unit
  credit_card_find : String → Option RemoteCreditCard
  customer_find : String → Option RemoteCustomer

/-- Observable side effects: gateway calls, sentry captures, log lines. -/
inductive Effect where
  | gwSubscriptionFind (id : String)
  | gwSubscriptionUpdate (id : String) (payload : SubUpdatePayload)
  | gwCreditCardFind (token : String)
  | gwCustomerFind (id : String)
  | sentryCaptureException
  | sentryCaptureMessage (msg : String)
  | logWarning (msg : String)
  | logException (msg : String)
  deriving DecidableEq, Repr

/-- Django `Manager.get` over an already-filtered row list: zero matches
raises `ObjectDoesNotExist`, several raise `MultipleObjectsReturned`. -/
def djangoGet {α : Type} (rows : List α) : Except PyExc α :=
  match rows with
  | [] => .error .objectDoesNotExist
  | [r] => .ok r
  | _ => .error .multipleObjectsReturned

/-- The rows of `self.subscription_add_ons.filter(add_on=item)` (resp.
discounts): the kind-`k` modifier rows of subscription `subId` for item
`itemId`. -/
def itemRowsFor (db : DB) (k : ItemKind) (subId itemId : String) : List ModRow :=
  (db.modRows k).filter (fun r => r.subscription = subId && r.item = itemId)

/-- `Subscription.add_on_quantity` / `discount_quantity`, generically over the
kind: `self.<table>.get(<item>=item).quantity`, returning 0 when
`ObjectDoesNotExist` is raised (the only exception the `except` clause
catches: `MultipleObjectsReturned` propagates). -/
def item_quantity (db : DB) (k : ItemKind) (subId itemId : String) :
    Except PyExc Nat :=
  match djangoGet (itemRowsFor db k subId itemId) with
  | .ok r => .ok r.quantity
  | .error .objectDoesNotExist => .ok 0
  | .error e => .error e

/-- `Subscription.add_on_quantity`. -/
def add_on_quantity (db : DB) (subId addOnId : String) : Except PyExc Nat :=
  item_quantity db .addOn subId addOnId

/-- `Subscription.discount_quantity`. -/
def discount_quantity (db : DB) (subId discountId : String) : Except PyExc Nat :=
  item_quantity db .discount subId discountId

/-- `Subscription.has_add_on` / `has_discount`, generically over the kind:
the corresponding quantity is strictly positive. -/
def has_item (db : DB) (k : ItemKind) (subId itemId : String) :
    Except PyExc Bool :=
  match item_quantity db k subId itemId with
  | .ok q => .ok (decide (0 < q))
  | .error e => .error e

/-- `Subscription.has_add_on`. -/
def has_add_on (db : DB) (subId addOnId : String) : Except PyExc Bool :=
  has_item db .addOn subId addOnId

/-- `Subscription.has_discount`. -/
def has_discount (db : DB) (subId discountId : String) : Except PyExc Bool :=
  has_item db .discount subId discountId

/-- `Subscription._subscription_gateway`: `gateway.subscription.find(self.id)`
with any exception captured to sentry and turned into `None`. -/
def subscription_gateway (gw : Gateway) (subId : String) :
    Option RemoteSubscription × List Effect :=
  match gw.subscription_find subId with
  | some s => (some s, [.gwSubscriptionFind subId])
  | none => (none, [.gwSubscriptionFind subId, .sentryCaptureException])

/-- `Subscription._update_subscription`: look the subscription up on the
gateway; only when the lookup returned an object, send the update (whose own
exception, unlike the lookup's, propagates).  When the lookup failed the
method silently returns without sending anything. -/
def update_subscription (gw : Gateway) (subId : String)
    (payload : SubUpdatePayload) : Except PyExc Unit × List Effect :=
  match subscription_gateway gw subId with
  | (some _, eff) =>
    match gw.subscription_update subId payload with
    | some _ => (.ok (), eff ++ [.gwSubscriptionUpdate subId payload])
    | none => (.error .gatewayError, eff ++ [.gwSubscriptionUpdate subId payload])
  | (none, eff) => (.ok (), eff)

/-- `Subscription._set_item`: compute `checker = has_add_on/has_discount`
(raising `MultipleObjectsReturned` before anything else when the join rows
are duplicated), choose `update`/`existing_id` when the subscription has the
item and `add`/`inherited_from_id` otherwise, send the payload through
`_update_subscription`, then write the local row: the `update` branch sets
the existing row's quantity, the `add` branch creates a fresh row (auto
primary key) with the call's quantity, the item's amount, `never_expires =
True`, the subscription's `current_billing_cycle`, and Django defaults for
the remaining columns. -/
def set_item (gw : Gateway) (db : DB) (k : ItemKind) (sub : SubRow)
    (item : ItemRef) (quantity : Nat) :
    Except PyExc Unit × DB × List Effect :=
  match has_item db k sub.id item.id with
  | .error e => (.error e, db, [])
  | .ok checker =>
    let mod_str := if checker then "update" else "add"
    let id_str := if checker then "existing_id" else "inherited_from_id"
    let payload := SubUpdatePayload.modify (k.key ++ "s") mod_str id_str
      item.id quantity
    match update_subscription gw sub.id payload with
    | (.error e, eff) => (.error e, db, eff)
    | (.ok _, eff) =>
      if checker then
        match djangoGet (itemRowsFor db k sub.id item.id) with
        | .error e => (.error e, db, eff)
        | .ok row =>
          let rows := (db.modRows k).map fun x =>
            if x.pk = row.pk then { row with quantity := quantity } else x
          (.ok (), db.setModRows k rows, eff)
      else
        let newRow : ModRow :=
          { pk := db.next_auto_id
            subscription := sub.id
            item := item.id
            quantity := quantity
            amount := item.amount
            current_billing_cycle := sub.current_billing_cycle
            never_expires := true
            name := ""
            number_of_billing_cycles := none }
        let db' := db.setModRows k (db.modRows k ++ [newRow])
        (.ok (), { db' with next_auto_id := db.next_auto_id + 1 }, eff)

/-- `Subscription.set_add_on`. -/
def set_add_on (gw : Gateway) (db : DB) (sub : SubRow) (add_on : ItemRef)
    (quantity : Nat) : Except PyExc Unit × DB × List Effect :=
  set_item gw db .addOn sub add_on quantity

/-- `Subscription.set_discount`. -/
def set_discount (gw : Gateway) (db : DB) (sub : SubRow) (discount : ItemRef)
    (quantity : Nat) : Except PyExc Unit × DB × List Effect :=
  set_item gw db .discount sub discount quantity

/-- The sentry message of `remove_add_on` / `remove_discount`. -/
def removeMsg (k : ItemKind) (subId itemId : String) : String :=
  match k with
  | .addOn => "Subscription " ++ subId ++ " does not have add on: " ++ itemId
  | .discount => "Subscription " ++ subId ++ " does not have discount: " ++ itemId

/-- Common body of `Subscription.remove_add_on` and
`Subscription.remove_discount`: when the subscription does not have the item,
capture a message to sentry and return; otherwise send the `remove` payload
through `_update_subscription` and delete the local join row. -/
def remove_item (gw : Gateway) (db : DB) (k : ItemKind) (sub : SubRow)
    (item : ItemRef) : Except PyExc Unit × DB × List Effect :=
  match has_item db k sub.id item.id with
  | .error e => (.error e, db, [])
  | .ok false => (.ok (), db, [.sentryCaptureMessage (removeMsg k sub.id item.id)])
  | .ok true =>
    let payload := SubUpdatePayload.removeItem (k.key ++ "s") item.id
    match update_subscription gw sub.id payload with
    | (.error e, eff) => (.error e, db, eff)
    | (.ok _, eff) =>
      match djangoGet (itemRowsFor db k sub.id item.id) with
      | .error e => (.error e, db, eff)
      | .ok row =>
        let rows := (db.modRows k).filter (fun r => r.pk ≠ row.pk)
        (.ok (), db.setModRows k rows, eff)

/-- `Subscription.remove_add_on`. -/
def remove_add_on (gw : Gateway) (db : DB) (sub : SubRow) (add_on : ItemRef) :
    Except PyExc Unit × DB × List Effect :=
  remove_item gw db .addOn sub add_on

/-- `Subscription.remove_discount`. -/
def remove_discount (gw : Gateway) (db : DB) (sub : SubRow)
    (discount : ItemRef) : Except PyExc Unit × DB × List Effect :=
  remove_item gw db .discount sub discount

/-- Run a sequence of `set_add_on`-style calls (kind `k`) on subscription
`sub`, stopping at the first raised exception and discarding effects. -/
def runSetItems (gw : Gateway) (k : ItemKind) (sub : SubRow)
    (calls : List (ItemRef × Nat)) (db : DB) : Except PyExc DB :=
  match calls with
  | [] => .ok db
  | (i, q) :: rest =>
    match set_item gw db k sub i q with
    | (.ok _, db', _) => runSetItems gw k sub rest db'
    | (.error e, _, _) => .error e

/-- Modelled from the spec: `Address.objects.update_or_create_from_remote_object`
(declared in the absent `customer.py`) upserts an address row keyed by the
gateway identifier, copying the descriptive fields, and returns the
`(instance, created)` pair. -/
def address_update_or_create_from_remote_object (db : DB) (r : RemoteAddress) :
    (AddressRow × Bool) × DB :=
  match db.addresses.find? (fun a => a.id = r.id) with
  | some _ =>
    let row : AddressRow := { id := r.id, fields := r.fields }
    let rows := db.addresses.map fun a => if a.id = r.id then row else a
    ((row, false), { db with addresses := rows })
  | none =>
    let row : AddressRow := { id := r.id, fields := r.fields }
    ((row, true), { db with addresses := db.addresses ++ [row] })

/-- Modelled from the spec: `Customer.objects.get_or_sync` (declared in the
absent `customer.py`) returns the local customer row when one with the given
gateway identifier exists, and otherwise fetches the remote customer and
upserts a row keyed by that identifier; a gateway failure propagates. -/
def customer_get_or_sync (gw : Gateway) (db : DB) (custId : String) :
    Except PyExc CustomerRow × DB × List Effect :=
  match db.customers.find? (fun c => c.id = custId) with
  | some row => (.ok row, db, [])
  | none =>
    match gw.customer_find custId with
    | none => (.error .gatewayError, db, [.gwCustomerFind custId])
    | some rc =>
      let row : CustomerRow := { id := rc.id, fields := rc.fields }
      (.ok row, { db with customers := db.customers ++ [row] },
        [.gwCustomerFind custId])

/-- The `CreditCard.objects.update_or_create(token=..., defaults=...)` call:
upsert keyed by the token primary key. -/
def upsertCreditCard (db : DB) (token : String) (cust : String)
    (billing : Option String) (dfl : CCDefaults) : (CCRow × Bool) × DB :=
  let row : CCRow :=
    { token := token, customer_id := cust, billing_address := billing,
      defaults := dfl }
  match db.credit_cards.find? (fun c => c.token = token) with
  | some _ =>
    let rows := db.credit_cards.map fun c => if c.token = token then row else c
    ((row, false), { db with credit_cards := rows })
  | none => ((row, true), { db with credit_cards := db.credit_cards ++ [row] })

/-- `CreditCardManager.update_or_create_from_remote_object`: recursively
`get_or_sync` the customer, upsert the billing address when the remote object
carries one (logging a warning otherwise), then upsert the credit card keyed
by `remote_obj.token`. -/
def credit_card_update_or_create_from_remote_object (gw : Gateway) (db : DB)
    (r : RemoteCreditCard) :
    Except PyExc (CCRow × Bool) × DB × List Effect :=
  match customer_get_or_sync gw db r.customer_id with
  | (.error e, db', eff) => (.error e, db', eff)
  | (.ok customer, db1, eff1) =>
    match r.billing_address with
    | some ra =>
      let ((addr, _), db2) := address_update_or_create_from_remote_object db1 ra
      let (pair, db3) := upsertCreditCard db2 r.token customer.id (some addr.id)
        r.defaults
      (.ok pair, db3, eff1)
    | none =>
      let (pair, db3) := upsertCreditCard db1 r.token customer.id none
        r.defaults
      (.ok pair, db3,
        eff1 ++ [.logWarning ("no address for CC for customer " ++ r.customer_id)])

/-- `CreditCardManager.update_or_create_from_sync`: fetch the remote credit
card by token (a failure propagates uncaught) and upsert it. -/
def credit_card_update_or_create_from_sync (gw : Gateway) (db : DB)
    (token : String) : Except PyExc (CCRow × Bool) × DB × List Effect :=
  match gw.credit_card_find token with
  | none => (.error .gatewayError, db, [.gwCreditCardFind token])
  | some rcc =>
    match credit_card_update_or_create_from_remote_object gw db rcc with
    | (res, db', eff) => (res, db', .gwCreditCardFind token :: eff)

/-- `CreditCardManager.get_or_sync`: return the local row when the token
exists (no gateway contact), otherwise sync it from the gateway. -/
def credit_card_get_or_sync (gw : Gateway) (db : DB) (token : String) :
    Except PyExc CCRow × DB × List Effect :=
  match db.credit_cards.find? (fun c => c.token = token) with
  | some row => (.ok row, db, [])
  | none =>
    match credit_card_update_or_create_from_sync gw db token with
    | (.error e, db', eff) => (.error e, db', eff)
    | (.ok (row, _), db', eff) => (.ok row, db', eff)

/-- The subscription row the sync writes: the `defaults=dict(...)` of
`SubscriptionManager.update_or_create_from_remote_object`. -/
def subRowOf (r : RemoteSubscription) (ccToken planId : String) : SubRow :=
  { id := r.id, payment_method := some ccToken, plan := planId,
    current_billing_cycle := r.current_billing_cycle, defaults := r.defaults }

/-- The `self.update_or_create(id=remote_obj.id, defaults=...)` call of
`SubscriptionManager`: upsert keyed by the subscription's primary key. -/
def upsertSubscription (db : DB) (r : RemoteSubscription) (ccToken : String)
    (planId : String) : (SubRow × Bool) × DB :=
  let row : SubRow := subRowOf r ccToken planId
  match db.subscriptions.find? (fun s => s.id = r.id) with
  | some _ =>
    let rows := db.subscriptions.map fun s => if s.id = r.id then row else s
    ((row, false), { db with subscriptions := rows })
  | none => ((row, true), { db with subscriptions := db.subscriptions ++ [row] })

/-- The join row the sync loop writes for a remote modifier: the
`defaults=dict(...)` of the modifier `update_or_create`, with the next
`AutoField` value as primary key when a row is created. -/
def modRowOf (subId : String) (m : RemoteModifier) (pk : Nat) : ModRow :=
  { pk := pk, subscription := subId, item := m.id, quantity := m.quantity,
    amount := m.amount, current_billing_cycle := m.current_billing_cycle,
    never_expires := m.never_expires, name := m.name,
    number_of_billing_cycles := m.number_of_billing_cycles }

/-- One `modifier_manager.update_or_create(<related_id>=modifier.id,
defaults=...)` call of the sync loop: the related manager is already filtered
to the subscription, so the lookup keys on (subscription, item); several
matching rows raise `MultipleObjectsReturned` out of the lookup. -/
def modifier_update_or_create (db : DB) (k : ItemKind) (subId : String)
    (m : RemoteModifier) : Except PyExc Unit × DB :=
  match djangoGet (itemRowsFor db k subId m.id) with
  | .ok row =>
    let row' : ModRow :=
      { row with
        amount := m.amount
        current_billing_cycle := m.current_billing_cycle
        name := m.name
        never_expires := m.never_expires
        number_of_billing_cycles := m.number_of_billing_cycles
        quantity := m.quantity }
    let rows := (db.modRows k).map fun x => if x.pk = row.pk then row' else x
    (.ok (), db.setModRows k rows)
  | .error .objectDoesNotExist =>
    let row : ModRow := modRowOf subId m db.next_auto_id
    let db' := db.setModRows k (db.modRows k ++ [row])
    (.ok (), { db' with next_auto_id := db.next_auto_id + 1 })
  | .error e => (.error e, db)

/-- The inner `for modifier in subscription_modifiers` loop for one kind:
rows written before a raise are kept (no rollback). -/
def syncModifiers (db : DB) (k : ItemKind) (subId : String)
    (ms : List RemoteModifier) : Except PyExc Unit × DB :=
  match ms with
  | [] => (.ok (), db)
  | m :: rest =>
    match modifier_update_or_create db k subId m with
    | (.error e, db') => (.error e, db')
    | (.ok _, db') => syncModifiers db' k subId rest

/-- The body of the `try` block of
`SubscriptionManager.update_or_create_from_remote_object`: look the plan up
(`Plan.objects.get` raises `ObjectDoesNotExist` when it is absent), upsert
the subscription row, then upsert a join row per remote add-on and per
remote discount. -/
def subscription_sync_try (db : DB) (r : RemoteSubscription) (ccToken : String) :
    Except PyExc (SubRow × Bool) × DB :=
  match db.plans.find? (fun p => p.id = r.plan_id) with
  | none => (.error .objectDoesNotExist, db)
  | some plan =>
    let ((inst, created), db1) := upsertSubscription db r ccToken plan.id
    match syncModifiers db1 .addOn inst.id r.add_ons with
    | (.error e, db2) => (.error e, db2)
    | (.ok _, db2) =>
      match syncModifiers db2 .discount inst.id r.discounts with
      | (.error e, db3) => (.error e, db3)
      | (.ok _, db3) => (.ok (inst, created), db3)

/-- `SubscriptionManager.update_or_create_from_remote_object`: `get_or_sync`
the payment method (an exception here propagates, being outside the `try`),
then run the upsert and modifier loop with every exception caught and logged,
returning `None` (here `Option.none`) in that case instead of the
`(instance, created)` pair. -/
def subscription_update_or_create_from_remote_object (gw : Gateway) (db : DB)
    (r : RemoteSubscription) :
    Except PyExc (Option (SubRow × Bool)) × DB × List Effect :=
  match credit_card_get_or_sync gw db r.payment_method_token with
  | (.error e, db', eff) => (.error e, db', eff)
  | (.ok cc, db1, eff1) =>
    match subscription_sync_try db1 r cc.token with
    | (.ok pair, db2) => (.ok (some pair), db2, eff1)
    | (.error _, db2) =>
      (.ok none, db2, eff1 ++ [.logException ("error syncing " ++ r.id)])

/-- `ReadOnlyAdmin.readonly_fields` (`admin.py`): the class attribute. -/
def ReadOnlyAdmin.readonly_fields : List String := []

/-- `ReadOnlyAdmin.get_readonly_fields`: the declared read-only fields plus
every model field plus every many-to-many field of the object. -/
def ReadOnlyAdmin.get_readonly_fields (ro modelFields m2mFields : List String) :
    List String :=
  ro ++ modelFields ++ m2mFields

/-- `ReadOnlyAdmin.has_add_permission`. -/
def ReadOnlyAdmin.has_add_permission : Bool := false

/-- `ReadOnlyAdmin.has_delete_permission`. -/
def ReadOnlyAdmin.has_delete_permission : Bool := false

/-- The REST-framework viewset base class a view inherits from. -/
inductive ViewSetBase where
  | modelViewSet
  | readOnlyModelViewSet
  deriving DecidableEq, Repr

/-- `views.py`: `class CustomerViewSet(viewsets.ModelViewSet)`. -/
def CustomerViewSet.base : ViewSetBase := .modelViewSet

/-- `views.py`: `class PaymentMethodViewSet(viewsets.ModelViewSet)`. -/
def PaymentMethodViewSet.base : ViewSetBase := .modelViewSet

/-- Modelled from the spec: the host REST framework's convention (spec
section 6, endpoints per framework convention) — a `ModelViewSet` exposes
the read actions plus the row-writing actions create/update/partial
update/destroy, while a `ReadOnlyModelViewSet` exposes only the read
actions.  The framework itself is outside the sources provided. -/
def viewSetActions : ViewSetBase → List String
  | .modelViewSet =>
    ["list", "retrieve", "create", "update", "partial_update", "destroy"]
  | .readOnlyModelViewSet => ["list", "retrieve"]

/-! ### Concrete sample data, used by witnesses and counterexamples -/

/-- Sample scalar subscription fields. -/
def dflt0 : SubDefaults :=
  { balance := 0, status := "Active", billing_period_end_date := 30,
    billing_period_start_date := 1, days_past_due := none, failure_count := 0,
    first_billing_date := 1, merchant_account_id := "m1",
    next_billing_date := 31, next_billing_period_amount := 1000,
    paid_through_date := some 30, price := 1000, description := none,
    billing_day_of_month := some 1, trial_duration := none,
    trial_duration_unit := none, trial_period := false, never_expires := true,
    number_of_billing_cycles := none, created_at := 0, updated_at := 0 }

/-- Sample scalar credit-card fields. -/
def ccdflt0 : CCDefaults :=
  { bin := "411111", card_type := "Visa", cardholder_name := some "A B",
    commercial := "No", country_of_issuance := "USA",
    customer_location := "US", debit := "No", card_default := true,
    expiration_date := "01/30", expiration_month := "01",
    expiration_year := "2030", expired := false, healthcare := "No",
    image_url := "https://x/visa.png", issuing_bank := "B",
    last_4 := "1111", masked_number := "411111******1111", payroll := "No",
    prepaid := "No", unique_number_identifier := "u1", created_at := 0,
    updated_at := 0 }

/-- A sample local subscription row. -/
def sub1 : SubRow :=
  { id := "s1", payment_method := some "tok1", plan := "p1",
    current_billing_cycle := 2, defaults := dflt0 }

/-- A sample add-on template. -/
def ao1 : ItemRef := { id := "ao1", amount := 500 }

/-- A sample remote modifier entry. -/
def rmod1 : RemoteModifier :=
  { id := "ao1", amount := 500, current_billing_cycle := 2, name := "AO",
    never_expires := true, number_of_billing_cycles := none, quantity := 1 }

/-- A sample remote subscription payload carrying one add-on. -/
def rsub1 : RemoteSubscription :=
  { id := "s1", payment_method_token := "tok1", plan_id := "p1",
    current_billing_cycle := 2, add_ons := [rmod1], discounts := [],
    defaults := dflt0 }

/-- A sample local credit card row for token `tok1`. -/
def cc1 : CCRow :=
  { token := "tok1", customer_id := "c1", billing_address := some "addr1",
    defaults := ccdflt0 }

/-- A gateway on which every call succeeds. -/
def gwOk : Gateway :=
  { subscription_find := fun _ => some rsub1
    subscription_update := fun _ _ => some ()
    credit_card_find := fun _ => none
    customer_find := fun _ => none }

/-- A gateway on which `subscription.find` raises (and everything else too):
models the outage scenario of the atomicity claim. -/
def gwDown : Gateway :=
  { subscription_find := fun _ => none
    subscription_update := fun _ _ => none
    credit_card_find := fun _ => none
    customer_find := fun _ => none }

/-- A local state holding just subscription `s1` (no modifier rows), its
plan and its credit card. -/
def db1 : DB :=
  { plans := [{ id := "p1" }], customers := [{ id := "c1", fields := "f" }],
    addresses := [{ id := "addr1", fields := "g" }], credit_cards := [cc1],
    subscriptions := [sub1], subscription_add_ons := [],
    subscription_discounts := [], next_auto_id := 1 }

/-- A zero-quantity join row for `(s1, ao1)`. -/
def rowZero : ModRow :=
  { pk := 1, subscription := "s1", item := "ao1", quantity := 0,
    amount := 500, current_billing_cycle := 2, never_expires := true,
    name := "", number_of_billing_cycles := none }

/-- `db1` with the zero-quantity join row present. -/
def dbZero : DB :=
  { db1 with subscription_add_ons := [rowZero], next_auto_id := 2 }

/-- The row `_set_item`'s `add` branch creates. -/
def newModRow (db : DB) (sub : SubRow) (item : ItemRef) (q : Nat) : ModRow :=
  { pk := db.next_auto_id, subscription := sub.id, item := item.id,
    quantity := q, amount := item.amount,
    current_billing_cycle := sub.current_billing_cycle, never_expires := true,
    name := "", number_of_billing_cycles := none }

/-- Database consistency: subscription `subId` carries at most one kind-`k`
join row per item (what the ORM's implicit uniqueness of a sane state gives,
and what `.get(...)` relies on). -/
def UniqueRow (db : DB) (k : ItemKind) (subId : String) : Prop :=
  ∀ itemId, (itemRowsFor db k subId itemId).length ≤ 1

/-- Database consistency: every kind-`k` join row of subscription `subId`
has positive quantity (so `has_add_on` agrees with row existence). -/
def PosRows (db : DB) (k : ItemKind) (subId : String) : Prop :=
  ∀ r ∈ db.modRows k, r.subscription = subId → 0 < r.quantity

/-- Database consistency: kind-`k` join rows have pairwise distinct primary
keys, all below the auto-key counter. -/
def PkFresh (db : DB) (k : ItemKind) : Prop :=
  (∀ x ∈ db.modRows k, ∀ y ∈ db.modRows k, x.pk = y.pk → x = y) ∧
  ∀ r ∈ db.modRows k, r.pk < db.next_auto_id

/-- A join row with positive quantity for `(s1, ao1)`. -/
def rowPos : ModRow :=
  { pk := 1, subscription := "s1", item := "ao1", quantity := 4,
    amount := 500, current_billing_cycle := 2, never_expires := true,
    name := "", number_of_billing_cycles := none }

/-- `db1` with the positive-quantity join row present. -/
def dbPos : DB :=
  { db1 with subscription_add_ons := [rowPos], next_auto_id := 2 }

/-- Duplicated join rows for `(s1, dup)`: a state on which the sync loop's
`update_or_create` raises `MultipleObjectsReturned`. -/
def dupRowA : ModRow :=
  { pk := 5, subscription := "s1", item := "dup", quantity := 1,
    amount := 0, current_billing_cycle := 1, never_expires := true,
    name := "", number_of_billing_cycles := none }

/-- The second copy of the duplicated join row. -/
def dupRowB : ModRow := { dupRowA with pk := 6 }

/-- A remote modifier whose local join rows are duplicated. -/
def dupMod : RemoteModifier :=
  { id := "dup", amount := 0, current_billing_cycle := 1, name := "D",
    never_expires := true, number_of_billing_cycles := none, quantity := 2 }

/-- A remote subscription carrying a healthy modifier before the bad one. -/
def rsubDup : RemoteSubscription := { rsub1 with add_ons := [rmod1, dupMod] }

/-- `db1` with the duplicated join rows for `(s1, dup)`. -/
def dbDup : DB :=
  { db1 with subscription_add_ons := [dupRowA, dupRowB], next_auto_id := 7 }

/-- The join row the sync loop writes for `rmod1` before it raises. -/
def rowSync7 : ModRow :=
  { pk := 7, subscription := "s1", item := "ao1", quantity := 1,
    amount := 500, current_billing_cycle := 2, never_expires := true,
    name := "AO", number_of_billing_cycles := none }

/-- The join row the sync loop writes for `rmod1` on `db1`. -/
def rowSync1 : ModRow :=
  { pk := 1, subscription := "s1", item := "ao1", quantity := 1,
    amount := 500, current_billing_cycle := 2, never_expires := true,
    name := "AO", number_of_billing_cycles := none }

/-- `db1` after syncing `rsub1`. -/
def db1Synced : DB :=
  { db1 with subscription_add_ons := [rowSync1], next_auto_id := 2 }

/-- The tables and counter a credit-card-side sync never touches. -/
def EntityFrame (db db2 : DB) : Prop :=
  db2.plans = db.plans ∧ db2.subscriptions = db.subscriptions ∧
  db2.subscription_add_ons = db.subscription_add_ons ∧
  db2.subscription_discounts = db.subscription_discounts ∧
  db2.next_auto_id = db.next_auto_id

/-- The tables the modifier loop never touches. -/
def SyncFrame (db db2 : DB) : Prop :=
  db2.plans = db.plans ∧ db2.customers = db.customers ∧
  db2.addresses = db.addresses ∧ db2.credit_cards = db.credit_cards ∧
  db2.subscriptions = db.subscriptions

/-- The modifier `m` of subscription `subId` is mirrored by exactly one
kind-`k` join row carrying `m`'s fields. -/
def SyncedRow (db : DB) (k : ItemKind) (subId : String)
    (m : RemoteModifier) : Prop :=
  ∃ pk, itemRowsFor db k subId m.id = [modRowOf subId m pk]

/-- `db1` with no plans and no subscription rows: a state on which the sync
cannot resolve the plan foreign key. -/
def dbNoPlan : DB := { db1 with plans := [], subscriptions := [] }

/-- `db1` with no subscription and no join rows: a fresh state for the
first sync. -/
def dbFresh : DB := { db1 with subscriptions := [], subscription_add_ons := [] }

/-- `dbFresh` after syncing `rsub1`. -/
def dbF1 : DB :=
  { dbFresh with
      subscriptions := [sub1]
      subscription_add_ons := [rowSync1]
      next_auto_id := 2 }

/-! ### Helper lemmas -/

/-- When the gateway lookup succeeds and the update call succeeds,
`_update_subscription` performs exactly the find followed by the update. -/
theorem update_subscription_send (gw : Gateway) (sid : String)
    (p : SubUpdatePayload) (rs : RemoteSubscription)
    (hfind : gw.subscription_find sid = some rs)
    (hupd : gw.subscription_update sid p = some ()) :
    update_subscription gw sid p =
      (.ok (), [.gwSubscriptionFind sid, .gwSubscriptionUpdate sid p]) := by
  simp [update_subscription, subscription_gateway, hfind, hupd]

/-- When the gateway update call never raises, `_update_subscription` always
returns normally (whatever the lookup does). -/
theorem update_subscription_ok (gw : Gateway) (sid : String)
    (p : SubUpdatePayload)
    (hupd : ∀ pl, gw.subscription_update sid pl = some ()) :
    ∃ eff, update_subscription gw sid p = (.ok (), eff) := by
  cases hfind : gw.subscription_find sid with
  | some rs => exact ⟨_, update_subscription_send gw sid p rs hfind (hupd p)⟩
  | none =>
    exact ⟨[.gwSubscriptionFind sid, .sentryCaptureException],
      by simp [update_subscription, subscription_gateway, hfind]⟩

/-- Replacing, by primary key, the unique row satisfying the filter rewrites
the filter's single result: the list surgery done by `sub_item.save()`. -/
theorem filter_map_replace_self (p : ModRow → Bool) (r r' : ModRow)
    (hp : p r' = true) :
    ∀ l : List ModRow, (∀ x ∈ l, x.pk = r.pk → x = r) →
      l.filter p = [r] →
      (l.map fun x => if x.pk = r.pk then r' else x).filter p = [r'] := by
  intro l
  induction l with
  | nil => intro _ h; simp at h
  | cons x t ih =>
    intro hinj hft
    by_cases hx : p x = true
    · rw [List.filter_cons, if_pos hx] at hft
      have hxr : x = r := (List.cons_eq_cons.mp hft).1
      have htnil : t.filter p = [] := (List.cons_eq_cons.mp hft).2
      have hxpk : x.pk = r.pk := by rw [hxr]
      have hmap : (t.map fun y => if y.pk = r.pk then r' else y) = t := by
        have h1 : ∀ y ∈ t, (if y.pk = r.pk then r' else y) = id y := by
          intro y hy
          by_cases hpk2 : y.pk = r.pk
          · exfalso
            have hyr : y = r := hinj y (List.mem_cons_of_mem x hy) hpk2
            have hrt : r ∈ t.filter p :=
              List.mem_filter.mpr ⟨hyr ▸ hy, hxr ▸ hx⟩
            rw [htnil] at hrt
            exact List.not_mem_nil r hrt
          · simp [hpk2]
        rw [List.map_congr_left h1, List.map_id]
      simp only [List.map_cons, if_pos hxpk, hmap, List.filter_cons,
        if_pos hp, htnil]
    · rw [List.filter_cons, if_neg hx] at hft
      have hxpk : x.pk ≠ r.pk := by
        intro hpk
        exact hx ((hinj x (List.mem_cons_self x t) hpk) ▸
          (List.mem_filter.mp (hft ▸ List.mem_cons_self r [])).2)
      have := ih (fun y hy => hinj y (List.mem_cons_of_mem x hy)) hft
      simp only [List.map_cons, if_neg hxpk, List.filter_cons,
        if_neg hx, this]

/-- Replacing, by primary key, a row that fails the filter (with a
replacement that also fails it) leaves the filter's result unchanged. -/
theorem filter_map_replace_other (p : ModRow → Bool) (r r' : ModRow)
    (hr : p r = false) (hr' : p r' = false) :
    ∀ l : List ModRow, (∀ x ∈ l, x.pk = r.pk → x = r) →
      (l.map fun x => if x.pk = r.pk then r' else x).filter p = l.filter p := by
  intro l
  induction l with
  | nil => intro _; simp
  | cons x t ih =>
    intro hinj
    have ht := ih (fun y hy => hinj y (List.mem_cons_of_mem x hy))
    by_cases hpk : x.pk = r.pk
    · have hxr : x = r := hinj x (List.mem_cons_self x t) hpk
      subst hxr
      rw [List.map_cons, if_pos hpk, List.filter_cons, List.filter_cons,
        hr', hr]
      simp only [Bool.false_eq_true, if_false]
      exact ht
    · rw [List.map_cons, if_neg hpk, List.filter_cons, List.filter_cons, ht]

/-- `_set_item` when the subscription does not have the item and the gateway
round trip returns normally: the `add` branch appends a fresh row. -/
theorem set_item_absent (gw : Gateway) (db : DB) (k : ItemKind) (sub : SubRow)
    (item : ItemRef) (q : Nat) (eff : List Effect)
    (hno : has_item db k sub.id item.id = .ok false)
    (hok : update_subscription gw sub.id
        (.modify (k.key ++ "s") "add" "inherited_from_id" item.id q) =
      (.ok (), eff)) :
    set_item gw db k sub item q =
      (.ok (),
       { db.setModRows k (db.modRows k ++ [newModRow db sub item q]) with
           next_auto_id := db.next_auto_id + 1 }, eff) := by
  simp only [set_item, hno, Bool.false_eq_true, if_false, hok, newModRow]

/-- `_set_item` when the subscription has the item (a unique join row with
positive quantity) and the gateway round trip returns normally: the `update`
branch rewrites that row's quantity in place. -/
theorem set_item_present (gw : Gateway) (db : DB) (k : ItemKind) (sub : SubRow)
    (item : ItemRef) (q : Nat) (r : ModRow) (eff : List Effect)
    (hL : itemRowsFor db k sub.id item.id = [r]) (hq : 0 < r.quantity)
    (hok : update_subscription gw sub.id
        (.modify (k.key ++ "s") "update" "existing_id" item.id q) =
      (.ok (), eff)) :
    set_item gw db k sub item q =
      (.ok (),
       db.setModRows k ((db.modRows k).map fun x =>
         if x.pk = r.pk then { r with quantity := q } else x), eff) := by
  have hhas : has_item db k sub.id item.id = .ok true := by
    simp [has_item, item_quantity, djangoGet, hL, hq]
  simp only [set_item, hhas, if_true, hok, djangoGet, hL]

/-- Selecting the rows just written by `setModRows`. -/
theorem modRows_setModRows (db : DB) (k : ItemKind) (rows : List ModRow) :
    (db.setModRows k rows).modRows k = rows := by
  cases k <;> rfl

/-- Bumping the auto-key counter does not touch the modifier tables. -/
theorem modRows_set_next (db : DB) (k : ItemKind) (n : Nat) :
    ({ db with next_auto_id := n }).modRows k = db.modRows k := by
  cases k <;> rfl

/-- A row of subscription `subId` is exactly a member of its own item's
filtered row list. -/
theorem mem_itemRowsFor (db : DB) (k : ItemKind) (subId : String)
    (r : ModRow) :
    r ∈ itemRowsFor db k subId r.item ↔
      r ∈ db.modRows k ∧ r.subscription = subId := by
  simp [itemRowsFor, List.mem_filter]

/-- Under `UniqueRow`, the filtered row list is nil or a singleton. -/
theorem rows_nil_or_singleton (db : DB) (k : ItemKind) (subId itemId : String)
    (hu : UniqueRow db k subId) :
    itemRowsFor db k subId itemId = [] ∨
      ∃ r, itemRowsFor db k subId itemId = [r] := by
  have h := hu itemId
  cases hL : itemRowsFor db k subId itemId with
  | nil => exact Or.inl rfl
  | cons r tl =>
    cases tl with
    | nil => exact Or.inr ⟨r, rfl⟩
    | cons r2 tl2 => rw [hL] at h; simp at h

/-- `setModRows` does not touch the auto-key counter. -/
theorem next_setModRows (db : DB) (k : ItemKind) (rows : List ModRow) :
    (db.setModRows k rows).next_auto_id = db.next_auto_id := by
  cases k <;> rfl

/-- One `set_item` call on a consistent database succeeds (when the gateway
update never raises), leaves the item with exactly one join row carrying the
requested quantity, leaves every other item's rows alone, and keeps primary
keys fresh. -/
theorem set_item_step (gw : Gateway) (db : DB) (k : ItemKind) (sub : SubRow)
    (item : ItemRef) (q : Nat)
    (hu : UniqueRow db k sub.id) (hp : PosRows db k sub.id)
    (hf : PkFresh db k)
    (hupd : ∀ pl, gw.subscription_update sub.id pl = some ()) :
    ∃ db' eff, set_item gw db k sub item q = (.ok (), db', eff) ∧
      (∃ r', itemRowsFor db' k sub.id item.id = [r'] ∧ r'.quantity = q ∧
        r'.subscription = sub.id) ∧
      (∀ j, j ≠ item.id →
        itemRowsFor db' k sub.id j = itemRowsFor db k sub.id j) ∧
      PkFresh db' k := by
  rcases rows_nil_or_singleton db k sub.id item.id hu with hL | ⟨r, hL⟩
  · -- the subscription does not have the item: `add` branch
    have hno : has_item db k sub.id item.id = .ok false := by
      simp [has_item, item_quantity, djangoGet, hL]
    obtain ⟨eff, hok⟩ := update_subscription_ok gw sub.id
      (.modify (k.key ++ "s") "add" "inherited_from_id" item.id q) hupd
    refine ⟨_, eff, set_item_absent gw db k sub item q eff hno hok, ?_, ?_, ?_⟩
    · refine ⟨newModRow db sub item q, ?_, rfl, rfl⟩
      simp only [itemRowsFor] at hL ⊢
      rw [modRows_set_next, modRows_setModRows, List.filter_append, hL]
      simp [newModRow]
    · intro j hj
      simp only [itemRowsFor]
      rw [modRows_set_next, modRows_setModRows, List.filter_append]
      have hone : List.filter
          (fun x => x.subscription = sub.id && x.item = j)
          [newModRow db sub item q] = [] := by
        simp [newModRow, Ne.symm hj]
      rw [hone, List.append_nil]
    · constructor
      · intro x hx y hy hxy
        rw [modRows_set_next, modRows_setModRows] at hx hy
        rcases List.mem_append.mp hx with hx1 | hx1 <;>
          rcases List.mem_append.mp hy with hy1 | hy1
        · exact hf.1 x hx1 y hy1 hxy
        · exfalso
          have h1 : x.pk < db.next_auto_id := hf.2 x hx1
          have h2 : y = newModRow db sub item q := by simpa using hy1
          rw [h2] at hxy
          simp [newModRow] at hxy
          omega
        · exfalso
          have h1 : y.pk < db.next_auto_id := hf.2 y hy1
          have h2 : x = newModRow db sub item q := by simpa using hx1
          rw [h2] at hxy
          simp [newModRow] at hxy
          omega
        · have h2 : x = newModRow db sub item q := by simpa using hx1
          have h3 : y = newModRow db sub item q := by simpa using hy1
          rw [h2, h3]
      · intro x hx
        rw [modRows_set_next, modRows_setModRows] at hx
        rcases List.mem_append.mp hx with hx1 | hx1
        · have := hf.2 x hx1
          simp only [DB.next_auto_id]
          omega
        · have h2 : x = newModRow db sub item q := by simpa using hx1
          rw [h2]
          simp [newModRow]
  · -- the subscription has the item: `update` branch
    have hrfil : r ∈ (db.modRows k).filter
        (fun x => x.subscription = sub.id && x.item = item.id) := by
      simp only [itemRowsFor] at hL
      rw [hL]
      exact List.mem_cons_self r []
    have hrmem : r ∈ db.modRows k := (List.mem_filter.mp hrfil).1
    have hpred := (List.mem_filter.mp hrfil).2
    have hsub : r.subscription = sub.id := by
      have := (Bool.and_eq_true _ _).mp hpred
      exact of_decide_eq_true this.1
    have hitem : r.item = item.id := by
      have := (Bool.and_eq_true _ _).mp hpred
      exact of_decide_eq_true this.2
    have hq : 0 < r.quantity := hp r hrmem hsub
    obtain ⟨eff, hok⟩ := update_subscription_ok gw sub.id
      (.modify (k.key ++ "s") "update" "existing_id" item.id q) hupd
    refine ⟨_, eff, set_item_present gw db k sub item q r eff hL hq hok,
      ?_, ?_, ?_⟩
    · refine ⟨{ r with quantity := q }, ?_, rfl, hsub⟩
      simp only [itemRowsFor] at hL ⊢
      rw [modRows_setModRows]
      apply filter_map_replace_self _ r _ _ _ (fun x hx hpk => hf.1 x hx r hrmem hpk) hL
      simp [hsub, hitem]
    · intro j hj
      simp only [itemRowsFor]
      rw [modRows_setModRows]
      apply filter_map_replace_other
      · simp only [Bool.and_eq_false_iff]
        right
        simp [hitem, Ne.symm hj]
      · simp only [Bool.and_eq_false_iff]
        right
        simp [hitem, Ne.symm hj]
      · exact fun x hx hpk => hf.1 x hx r hrmem hpk
    · constructor
      · intro x hx y hy hxy
        rw [modRows_setModRows] at hx hy
        obtain ⟨x0, hx0, hfx⟩ := List.mem_map.mp hx
        obtain ⟨y0, hy0, hfy⟩ := List.mem_map.mp hy
        have hpk_eq : ∀ z : ModRow,
            (if z.pk = r.pk then { r with quantity := q } else z).pk = z.pk := by
          intro z
          by_cases hz : z.pk = r.pk
          · simp [hz]
          · simp [hz]
        have hx0y0 : x0 = y0 := by
          apply hf.1 x0 hx0 y0 hy0
          have h1 := hpk_eq x0
          have h2 := hpk_eq y0
          rw [hfx] at h1
          rw [hfy] at h2
          omega
        rw [← hfx, ← hfy, hx0y0]
      · intro x hx
        rw [modRows_setModRows] at hx
        obtain ⟨x0, hx0, hfx⟩ := List.mem_map.mp hx
        have hb := hf.2 x0 hx0
        have hn : (db.setModRows k ((db.modRows k).map fun z =>
            if z.pk = r.pk then { r with quantity := q } else z)).next_auto_id
            = db.next_auto_id := next_setModRows db k _
        rw [hn]
        by_cases hz : x0.pk = r.pk
        · rw [← hfx]
          simp only [hz, if_true]
          have := hf.2 r hrmem
          simpa using this
        · rw [← hfx]
          simp only [hz, if_false]
          exact hb

/-- A `set_item` call with positive quantity keeps the database consistent. -/
theorem invariants_after (db db' : DB) (k : ItemKind) (subId itemId : String)
    (q : Nat)
    (hu : UniqueRow db k subId) (hp : PosRows db k subId)
    (h2 : ∃ r', itemRowsFor db' k subId itemId = [r'] ∧ r'.quantity = q ∧
      r'.subscription = subId)
    (h3 : ∀ j, j ≠ itemId → itemRowsFor db' k subId j = itemRowsFor db k subId j)
    (hq : 0 < q) :
    UniqueRow db' k subId ∧ PosRows db' k subId := by
  obtain ⟨r', hr', hrq, hrs⟩ := h2
  constructor
  · intro j
    by_cases hj : j = itemId
    · subst hj; rw [hr']; simp
    · rw [h3 j hj]; exact hu j
  · intro x hx hxs
    have hxin : x ∈ itemRowsFor db' k subId x.item :=
      (mem_itemRowsFor db' k subId x).mpr ⟨hx, hxs⟩
    by_cases hj : x.item = itemId
    · rw [hj, hr'] at hxin
      have hxr : x = r' := by simpa using hxin
      rw [hxr, hrq]
      exact hq
    · rw [h3 x.item hj] at hxin
      have hxmem := (mem_itemRowsFor db k subId x).mp hxin
      exact hp x hxmem.1 hxs

/-! ### Claims -/

/-- C1, counterexample: the round-trip claim fails as stated.  Starting from
a subscription with no add-on rows and a healthy gateway, the call sequence
`set_add_on(ao1, 0); set_add_on(ao1, 5)` completes normally, yet
`add_on_quantity` afterwards raises `MultipleObjectsReturned` instead of
returning 5: the first call created a quantity-0 row, so the second call's
`has_add_on` check was false and a second row was created. -/
theorem c1_zero_then_set_breaks_round_trip :
    (runSetItems gwOk .addOn sub1 [(ao1, 0), (ao1, 5)] db1).map
        (fun db2 => add_on_quantity db2 sub1.id ao1.id) =
      .ok (.error .multipleObjectsReturned) := by rfl

/-- C1 (amended): round-trip consistency of subscription modifiers holds for
call sequences whose earlier calls all have positive quantity.  For every
subscription, kind (add-on or discount, symmetrically), and consistent
database (at most one join row per item, positive quantities, fresh primary
keys), if the gateway update call never raises, then after any such sequence
ending with `set_add_on(a, q)` (resp. `set_discount`), `add_on_quantity`
(resp. `discount_quantity`) returns `q`. -/
theorem c1_round_trip_amended (gw : Gateway) (k : ItemKind) (sub : SubRow)
    (db : DB) (calls : List (ItemRef × Nat)) (a : ItemRef) (q : Nat)
    (hu : UniqueRow db k sub.id) (hp : PosRows db k sub.id)
    (hf : PkFresh db k)
    (hpos : ∀ c ∈ calls, 0 < c.2)
    (hupd : ∀ pl, gw.subscription_update sub.id pl = some ()) :
    ∃ db', runSetItems gw k sub (calls ++ [(a, q)]) db = .ok db' ∧
      item_quantity db' k sub.id a.id = .ok q := by
  induction calls generalizing db with
  | nil =>
    obtain ⟨db2, eff, hstep, ⟨r', hr', hrq, _⟩, _, _⟩ :=
      set_item_step gw db k sub a q hu hp hf hupd
    refine ⟨db2, ?_, ?_⟩
    · simp only [List.nil_append, runSetItems, hstep]
    · simp [item_quantity, djangoGet, hr', hrq]
  | cons c rest ih =>
    obtain ⟨i, qq⟩ := c
    obtain ⟨db1, eff, hstep, h2, h3, hf1⟩ :=
      set_item_step gw db k sub i qq hu hp hf hupd
    have hq : 0 < qq := hpos (i, qq) (List.mem_cons_self _ rest)
    obtain ⟨hu1, hp1⟩ :=
      invariants_after db db1 k sub.id i.id qq hu hp h2 h3 hq
    obtain ⟨db', hrun, hquant⟩ := ih db1 hu1 hp1 hf1
      (fun x hx => hpos x (List.mem_cons_of_mem _ hx))
    refine ⟨db', ?_, hquant⟩
    simp only [List.cons_append, runSetItems, hstep]
    exact hrun

/-- C1 witness: a concrete run of the amended round trip —
`set_add_on(ao1, 2); set_add_on(ao1, 5)` on the empty join state ends with
`add_on_quantity = 5`. -/
theorem c1_round_trip_witness :
    (∀ c ∈ [(ao1, 2)], 0 < c.2) ∧
    ∃ db', runSetItems gwOk .addOn sub1 ([(ao1, 2)] ++ [(ao1, 5)]) db1 = .ok db' ∧
      item_quantity db' .addOn sub1.id ao1.id = .ok 5 :=
  ⟨by decide,
    c1_round_trip_amended gwOk .addOn sub1 db1 [(ao1, 2)] ao1 5
      (fun j => by simp [itemRowsFor, DB.modRows, db1])
      (fun r hr => by simp [DB.modRows, db1] at hr)
      ⟨fun x hx => by simp [DB.modRows, db1] at hx,
       fun r hr => by simp [DB.modRows, db1] at hr⟩
      (by decide) (fun pl => rfl)⟩

/-- C2: evaluation at the failing input.  When the gateway lookup raises
(`gwDown`), `set_add_on(ao1, 3)` still returns normally, creates the local
`SubscriptionAddOn` row with quantity 3, and performs no
`gateway.subscription.update` call (only the failed find and the sentry
capture) — the local state silently diverges from the remote state, contrary
to the claim that the local rows are left unchanged. -/
theorem c2_local_write_despite_gateway_failure :
    set_add_on gwDown db1 sub1 ao1 3 =
      (.ok (),
       { db1 with
           subscription_add_ons :=
             [{ pk := 1, subscription := "s1", item := "ao1", quantity := 3,
                amount := 500, current_billing_cycle := 2,
                never_expires := true, name := "",
                number_of_billing_cycles := none }]
           next_auto_id := 2 },
       [.gwSubscriptionFind "s1", .sentryCaptureException]) := by rfl

/-- C4, counterexample: the REST endpoints do hand-author entity rows.
`CustomerViewSet` inherits `ModelViewSet`, whose action set is not limited
to the read actions `list` and `retrieve` — it also exposes `create`,
`update`, `partial_update` and `destroy`. -/
theorem c4_rest_endpoints_write :
    ¬ (∀ a ∈ viewSetActions CustomerViewSet.base,
        a = "list" ∨ a = "retrieve") := by decide

/-- C4 (amended): the admin UI is read-only — `ReadOnlyAdmin` denies add and
delete permission and marks the declared read-only fields plus every model
field plus every many-to-many field read-only — but the REST endpoints are
full `ModelViewSet`s for `Customer` and `CreditCard`, exposing the
row-writing actions, so local rows can be created and modified outside the
sync methods. -/
theorem c4_admin_read_only_rest_writes :
    ReadOnlyAdmin.has_add_permission = false ∧
    ReadOnlyAdmin.has_delete_permission = false ∧
    (∀ ro mf m2m, ReadOnlyAdmin.get_readonly_fields ro mf m2m =
      ro ++ mf ++ m2m) ∧
    "create" ∈ viewSetActions CustomerViewSet.base ∧
    "update" ∈ viewSetActions CustomerViewSet.base ∧
    "destroy" ∈ viewSetActions PaymentMethodViewSet.base :=
  ⟨rfl, rfl, fun _ _ _ => rfl, by decide, by decide, by decide⟩

/-- C5: two independent no-ops.  Whenever the subscription does not have the
add-on, `remove_add_on` captures a message to sentry, returns normally
without raising, performs no gateway call, and leaves the whole local
database unchanged; symmetrically, whenever it does not have the discount,
`remove_discount` does the same — each half under its own precondition
only. -/
theorem c5_remove_precondition_noop (gw : Gateway) (db : DB) (sub : SubRow)
    (item : ItemRef) :
    (has_add_on db sub.id item.id = .ok false →
      remove_add_on gw db sub item =
        (.ok (), db,
         [.sentryCaptureMessage (removeMsg .addOn sub.id item.id)])) ∧
    (has_discount db sub.id item.id = .ok false →
      remove_discount gw db sub item =
        (.ok (), db,
         [.sentryCaptureMessage (removeMsg .discount sub.id item.id)])) := by
  constructor
  · intro ha
    have ha' : has_item db .addOn sub.id item.id = .ok false := ha
    simp only [remove_add_on, remove_item, ha']
  · intro hd
    have hd' : has_item db .discount sub.id item.id = .ok false := hd
    simp only [remove_discount, remove_item, hd']

/-- C5 witness: the add-on half runs on `dbZero`, whose `(s1, ao1)` row has
quantity 0 (so `has_add_on` is false even though a row exists); the discount
half runs on `dbPos`, where `has_add_on` is true but `has_discount` is false
— each half fires under its own precondition alone. -/
theorem c5_remove_precondition_noop_witness :
    remove_add_on gwOk dbZero sub1 ao1 =
      (.ok (), dbZero,
       [.sentryCaptureMessage (removeMsg .addOn sub1.id ao1.id)]) ∧
    remove_discount gwOk dbPos sub1 ao1 =
      (.ok (), dbPos,
       [.sentryCaptureMessage (removeMsg .discount sub1.id ao1.id)]) :=
  ⟨(c5_remove_precondition_noop gwOk dbZero sub1 ao1).1 (by rfl),
   (c5_remove_precondition_noop gwOk dbPos sub1 ao1).2 (by rfl)⟩

/-- C6: exists-update / absent-create branching of `_set_item`.  With a
healthy gateway: when the subscription already has the item (its unique join
row has positive quantity), the gateway receives an `update` entry keyed
`existing_id` and the join row's quantity is set to `q`; otherwise
(`has_add_on`/`has_discount` false) the gateway receives an `add` entry keyed
`inherited_from_id` and a fresh join row is created with quantity `q`, the
item's `amount`, `never_expires = true`, and the subscription's
`current_billing_cycle`. -/
theorem c6_exists_update_absent_create (gw : Gateway) (db : DB)
    (k : ItemKind) (sub : SubRow) (item : ItemRef) (q : Nat)
    (rs : RemoteSubscription)
    (hfind : gw.subscription_find sub.id = some rs)
    (hupd : ∀ pl, gw.subscription_update sub.id pl = some ()) :
    (∀ r, itemRowsFor db k sub.id item.id = [r] → 0 < r.quantity →
      set_item gw db k sub item q =
        (.ok (),
         db.setModRows k ((db.modRows k).map fun x =>
           if x.pk = r.pk then { r with quantity := q } else x),
         [.gwSubscriptionFind sub.id,
          .gwSubscriptionUpdate sub.id
            (.modify (k.key ++ "s") "update" "existing_id" item.id q)])) ∧
    (has_item db k sub.id item.id = .ok false →
      set_item gw db k sub item q =
        (.ok (),
         { db.setModRows k (db.modRows k ++ [newModRow db sub item q]) with
             next_auto_id := db.next_auto_id + 1 },
         [.gwSubscriptionFind sub.id,
          .gwSubscriptionUpdate sub.id
            (.modify (k.key ++ "s") "add" "inherited_from_id" item.id q)])) := by
  constructor
  · intro r hL hq
    exact set_item_present gw db k sub item q r _ hL hq
      (update_subscription_send gw sub.id _ rs hfind (hupd _))
  · intro hno
    exact set_item_absent gw db k sub item q _ hno
      (update_subscription_send gw sub.id _ rs hfind (hupd _))

/-- C6 witness: on `dbPos` (one positive row) the `update`/`existing_id`
branch fires and rewrites the row's quantity to 7. -/
theorem c6_exists_update_absent_create_witness :
    set_item gwOk dbPos .addOn sub1 ao1 7 =
      (.ok (),
       dbPos.setModRows .addOn ((dbPos.modRows .addOn).map fun x =>
         if x.pk = rowPos.pk then { rowPos with quantity := 7 } else x),
       [.gwSubscriptionFind sub1.id,
        .gwSubscriptionUpdate sub1.id
          (.modify (ItemKind.key .addOn ++ "s") "update" "existing_id"
            ao1.id 7)]) :=
  (c6_exists_update_absent_create gwOk dbPos .addOn sub1 ao1 7 rsub1 rfl
    (fun pl => rfl)).1 rowPos (by rfl) (by decide)

/-- C9: `has_add_on` / `has_discount` (generically `has_item`) is true
exactly when a join row linking the subscription and the item exists with
strictly positive quantity; in particular a quantity-0 row does not count.
Stated for databases whose join rows are not duplicated for the item (as
`.get` otherwise raises). -/
theorem c9_has_item_iff_positive_row (db : DB) (k : ItemKind)
    (subId itemId : String)
    (hu : (itemRowsFor db k subId itemId).length ≤ 1) :
    has_item db k subId itemId = .ok true ↔
      ∃ r ∈ db.modRows k, r.subscription = subId ∧ r.item = itemId ∧
        0 < r.quantity := by
  cases hL : itemRowsFor db k subId itemId with
  | nil =>
    simp only [has_item, item_quantity, djangoGet, hL]
    constructor
    · intro h; simp at h
    · rintro ⟨r, hr, hsub, hitem, hq⟩
      exfalso
      have : r ∈ itemRowsFor db k subId itemId := by
        rw [← hitem] at hL ⊢
        exact (mem_itemRowsFor db k subId r).mpr ⟨hr, hsub⟩
      rw [hL] at this
      exact List.not_mem_nil r this
  | cons r tl =>
    have htl : tl = [] := by
      cases tl with
      | nil => rfl
      | cons r2 tl2 => rw [hL] at hu; simp at hu
    subst htl
    have hrfil : r ∈ itemRowsFor db k subId itemId := by
      rw [hL]; exact List.mem_cons_self r []
    have hrdec := List.mem_filter.mp hrfil
    have hsub : r.subscription = subId := by
      have := (Bool.and_eq_true _ _).mp hrdec.2
      exact of_decide_eq_true this.1
    have hitem : r.item = itemId := by
      have := (Bool.and_eq_true _ _).mp hrdec.2
      exact of_decide_eq_true this.2
    simp only [has_item, item_quantity, djangoGet, hL]
    constructor
    · intro h
      have hq : 0 < r.quantity := by
        by_cases hq0 : 0 < r.quantity
        · exact hq0
        · simp [hq0] at h
      exact ⟨r, hrdec.1, hsub, hitem, hq⟩
    · rintro ⟨r2, hr2, hsub2, hitem2, hq2⟩
      have : r2 ∈ itemRowsFor db k subId itemId := by
        rw [← hitem2] at hL ⊢
        exact (mem_itemRowsFor db k subId r2).mpr ⟨hr2, hsub2⟩
      rw [hL] at this
      have hr2r : r2 = r := by simpa using this
      rw [hr2r] at hq2
      simp [hq2]

/-- C9 witness: on `dbZero` the `(s1, ao1)` row exists with quantity 0, and
the equivalence instantiates — `has_item` is false there. -/
theorem c9_has_item_iff_positive_row_witness :
    (itemRowsFor dbZero .addOn sub1.id ao1.id).length ≤ 1 ∧
    (has_item dbZero .addOn sub1.id ao1.id = .ok true ↔
      ∃ r ∈ dbZero.modRows .addOn, r.subscription = sub1.id ∧
        r.item = ao1.id ∧ 0 < r.quantity) :=
  ⟨by decide,
    c9_has_item_iff_positive_row dbZero .addOn sub1.id ao1.id (by decide)⟩

/-- C10: the `try`/`except` of
`SubscriptionManager.update_or_create_from_remote_object`.  Whenever the
payment method resolved (the part outside the `try`) but the upsert or the
modifier-row loop raises, the manager logs the exception and returns `None`
instead of the pair, keeping whatever rows the loop wrote before the raise
(no rollback). -/
theorem c10_sync_catches_upsert_errors (gw : Gateway) (db : DB)
    (r : RemoteSubscription) (cc : CCRow) (db1 dbMid : DB)
    (eff1 : List Effect) (e : PyExc)
    (hcc : credit_card_get_or_sync gw db r.payment_method_token =
      (.ok cc, db1, eff1))
    (htry : subscription_sync_try db1 r cc.token = (.error e, dbMid)) :
    subscription_update_or_create_from_remote_object gw db r =
      (.ok none, dbMid, eff1 ++ [.logException ("error syncing " ++ r.id)]) := by
  simp only [subscription_update_or_create_from_remote_object, hcc, htry]

/-- C10 witness: on `dbDup` the loop upserts the `ao1` row, then raises on
the duplicated `dup` rows; the manager returns `None`, logs, and the `ao1`
row written before the raise is kept. -/
theorem c10_sync_catches_upsert_errors_witness :
    subscription_update_or_create_from_remote_object gwOk dbDup rsubDup =
      (.ok none,
       { dbDup with
           subscription_add_ons := [dupRowA, dupRowB, rowSync7]
           next_auto_id := 8 },
       [] ++ [.logException ("error syncing " ++ rsubDup.id)]) :=
  c10_sync_catches_upsert_errors gwOk dbDup rsubDup cc1 dbDup
    { dbDup with
        subscription_add_ons := [dupRowA, dupRowB, rowSync7]
        next_auto_id := 8 }
    [] .multipleObjectsReturned (by rfl) (by rfl)

/-- C7, counterexample: sync does assign internally generated keys.  Syncing
the same remote payload `rsub1` onto the same local state, differing only in
the auto-key counter, yields `SubscriptionAddOn` join rows with primary keys
41 and 42 respectively — the join row's primary key is the `AutoField`
counter, not the gateway's identifier for the modifier. -/
theorem c7_join_rows_internally_keyed :
    ((subscription_update_or_create_from_remote_object gwOk
        { db1 with next_auto_id := 41 } rsub1).2.1.subscription_add_ons.map
      (fun x => x.pk) = [41]) ∧
    ((subscription_update_or_create_from_remote_object gwOk
        { db1 with next_auto_id := 42 } rsub1).2.1.subscription_add_ons.map
      (fun x => x.pk) = [42]) := by
  constructor <;> rfl

/-- The subscription upsert always hands back the row keyed by the remote
identifier. -/
theorem upsertSubscription_id (db : DB) (r : RemoteSubscription)
    (t p : String) : (upsertSubscription db r t p).1.1.id = r.id := by
  unfold upsertSubscription
  split <;> rfl

/-- The credit-card upsert always hands back the row keyed by the token it
was given. -/
theorem upsertCreditCard_token (db : DB) (t c : String) (b : Option String)
    (d : CCDefaults) : (upsertCreditCard db t c b d).1.1.token = t := by
  unfold upsertCreditCard
  split <;> rfl

/-- A successful `try` block hands back an instance keyed `r.id`. -/
theorem subscription_sync_try_ok_id (db : DB) (r : RemoteSubscription)
    (t : String) (p : SubRow × Bool) (db2 : DB)
    (h : subscription_sync_try db r t = (.ok p, db2)) :
    p.1.id = r.id := by
  unfold subscription_sync_try at h
  split at h
  · simp at h
  · rename_i plan hplan
    rcases hup : upsertSubscription db r t plan.id with ⟨⟨inst, created⟩, dbS⟩
    rw [hup] at h
    dsimp only at h
    rcases hA : syncModifiers dbS .addOn inst.id r.add_ons with ⟨resA, dbA⟩
    rw [hA] at h
    cases resA with
    | error e => simp at h
    | ok u =>
      dsimp only at h
      rcases hD : syncModifiers dbA .discount inst.id r.discounts with ⟨resD, dbD⟩
      rw [hD] at h
      cases resD with
      | error e => simp at h
      | ok u2 =>
        dsimp only at h
        simp only [Prod.mk.injEq, Except.ok.injEq] at h
        rw [← h.1]
        have : (upsertSubscription db r t plan.id).1.1 = inst := by
          rw [hup]
        rw [← this]
        exact upsertSubscription_id db r t plan.id

/-- A successful credit-card upsert hands back the row keyed by the remote
token. -/
theorem cc_upsert_ok_token (gw : Gateway) (db : DB) (rcc : RemoteCreditCard)
    (p : CCRow × Bool) (db2 : DB) (eff : List Effect)
    (h : credit_card_update_or_create_from_remote_object gw db rcc =
      (.ok p, db2, eff)) :
    p.1.token = rcc.token := by
  unfold credit_card_update_or_create_from_remote_object at h
  rcases hc : customer_get_or_sync gw db rcc.customer_id with ⟨resC, dbC, effC⟩
  rw [hc] at h
  cases resC with
  | error e => simp at h
  | ok customer =>
    cases hba : rcc.billing_address with
    | some ra =>
      rw [hba] at h
      dsimp only at h
      rcases had : address_update_or_create_from_remote_object dbC ra with
        ⟨⟨addr, cr⟩, dbAd⟩
      rw [had] at h
      dsimp only at h
      rcases hup : upsertCreditCard dbAd rcc.token customer.id (some addr.id)
          rcc.defaults with ⟨pr, dbU⟩
      rw [hup] at h
      dsimp only at h
      simp only [Prod.mk.injEq, Except.ok.injEq] at h
      rw [← h.1]
      have : (upsertCreditCard dbAd rcc.token customer.id (some addr.id)
          rcc.defaults).1 = pr := by rw [hup]
      rw [← this]
      exact upsertCreditCard_token dbAd rcc.token customer.id (some addr.id)
        rcc.defaults
    | none =>
      rw [hba] at h
      dsimp only at h
      rcases hup : upsertCreditCard dbC rcc.token customer.id none
          rcc.defaults with ⟨pr, dbU⟩
      rw [hup] at h
      dsimp only at h
      simp only [Prod.mk.injEq, Except.ok.injEq] at h
      rw [← h.1]
      have : (upsertCreditCard dbC rcc.token customer.id none
          rcc.defaults).1 = pr := by rw [hup]
      rw [← this]
      exact upsertCreditCard_token dbC rcc.token customer.id none rcc.defaults

/-- C7 (amended): the top-level mirrored entities are keyed by the gateway
identifier — a successful subscription sync returns an instance with
`id = remote_obj.id` and a successful credit-card upsert an instance with
`token = remote_obj.token` — but the `SubscriptionAddOn` /
`SubscriptionDiscount` join rows written by the sync loop carry an
internally generated `AutoField` primary key instead, keyed to the gateway
only through their `(subscription, add_on/discount)` columns. -/
theorem c7_sync_keys_amended (gw : Gateway) (db : DB) :
    (∀ (r : RemoteSubscription) (pair : SubRow × Bool) (db' : DB)
        (eff : List Effect),
      subscription_update_or_create_from_remote_object gw db r =
        (.ok (some pair), db', eff) →
      pair.1.id = r.id) ∧
    (∀ (rcc : RemoteCreditCard) (pair : CCRow × Bool) (db' : DB)
        (eff : List Effect),
      credit_card_update_or_create_from_remote_object gw db rcc =
        (.ok pair, db', eff) →
      pair.1.token = rcc.token) := by
  constructor
  · intro r pair db' eff h
    unfold subscription_update_or_create_from_remote_object at h
    rcases hcc : credit_card_get_or_sync gw db r.payment_method_token with
      ⟨resC, dbC, effC⟩
    rw [hcc] at h
    cases resC with
    | error e => simp at h
    | ok cc =>
      dsimp only at h
      rcases htry : subscription_sync_try dbC r cc.token with ⟨resT, dbT⟩
      rw [htry] at h
      cases resT with
      | error e => simp at h
      | ok pr =>
        dsimp only at h
        simp only [Prod.mk.injEq, Except.ok.injEq, Option.some.injEq] at h
        rw [← h.1]
        exact subscription_sync_try_ok_id dbC r cc.token pr dbT htry
  · intro rcc pair db' eff h
    exact cc_upsert_ok_token gw db rcc pair db' eff h

/-- C7 witness: syncing `rsub1` on `db1` succeeds and the returned instance
is keyed `rsub1.id`. -/
theorem c7_sync_keys_amended_witness :
    subscription_update_or_create_from_remote_object gwOk db1 rsub1 =
      (.ok (some (sub1, false)), db1Synced, []) ∧ sub1.id = rsub1.id :=
  ⟨by rfl,
    (c7_sync_keys_amended gwOk db1).1 rsub1 (sub1, false) db1Synced []
      (by rfl)⟩

/-- C8: `CreditCardManager.get_or_sync`.  (1) When a row with the token
exists locally it is returned as-is, with no database change and no gateway
contact.  (2) When none exists, the remote object is fetched and upserted,
recursively syncing the related customer and address (shown here for a
remote card carrying a billing address, whose customer and address are
absent locally and whose gateway lookups succeed).  (3) Subscription sync
resolves its payment-method foreign key through this path: with the token
locally present, the whole subscription sync performs no gateway call. -/
theorem c8_get_or_sync_local_first (gw : Gateway) (db : DB) (token : String) :
    (∀ row, db.credit_cards.find? (fun c => c.token = token) = some row →
      credit_card_get_or_sync gw db token = (.ok row, db, [])) ∧
    (∀ (rcc : RemoteCreditCard) (ra : RemoteAddress) (rc : RemoteCustomer),
      db.credit_cards.find? (fun c => c.token = token) = none →
      gw.credit_card_find token = some rcc →
      rcc.token = token →
      rcc.billing_address = some ra →
      db.customers.find? (fun c => c.id = rcc.customer_id) = none →
      gw.customer_find rcc.customer_id = some rc →
      db.addresses.find? (fun a => a.id = ra.id) = none →
      credit_card_get_or_sync gw db token =
        (.ok { token := token, customer_id := rc.id,
               billing_address := some ra.id, defaults := rcc.defaults },
         { db with
             customers := db.customers ++ [{ id := rc.id, fields := rc.fields }]
             addresses := db.addresses ++ [{ id := ra.id, fields := ra.fields }]
             credit_cards := db.credit_cards ++
               [{ token := token, customer_id := rc.id,
                  billing_address := some ra.id, defaults := rcc.defaults }] },
         [.gwCreditCardFind token, .gwCustomerFind rcc.customer_id])) ∧
    (∀ (r : RemoteSubscription) (row : CCRow),
      r.payment_method_token = token →
      db.credit_cards.find? (fun c => c.token = token) = some row →
      (subscription_update_or_create_from_remote_object gw db r).2.2 = [] ∨
      (subscription_update_or_create_from_remote_object gw db r).2.2 =
        [.logException ("error syncing " ++ r.id)]) := by
  refine ⟨?_, ?_, ?_⟩
  · intro row hfind
    simp only [credit_card_get_or_sync, hfind]
  · intro rcc ra rc hnone hgw htok hba hcust hrc haddr
    subst htok
    simp only [credit_card_get_or_sync, hnone, credit_card_update_or_create_from_sync,
      hgw, credit_card_update_or_create_from_remote_object, customer_get_or_sync,
      hcust, hrc, hba, address_update_or_create_from_remote_object, haddr,
      upsertCreditCard, hnone]
  · intro r row hteq hfind
    rw [← hteq] at hfind
    simp only [subscription_update_or_create_from_remote_object,
      credit_card_get_or_sync, hfind]
    rcases htry : subscription_sync_try db r row.token with ⟨resT, dbT⟩
    cases resT with
    | error e => right; rfl
    | ok pr => left; rfl

/-- C8 witness: the token `tok1` exists locally, so `get_or_sync` returns
the local row `cc1` without touching the gateway or the database. -/
theorem c8_get_or_sync_local_first_witness :
    credit_card_get_or_sync gwOk db1 "tok1" = (.ok cc1, db1, []) :=
  (c8_get_or_sync_local_first gwOk db1 "tok1").1 cc1 (by rfl)

/-! ### Idempotence machinery for the subscription sync -/

/-- `find?` skips a prefix with no match. -/
theorem find?_append_none {α : Type} (l1 l2 : List α) (p : α → Bool)
    (h : l1.find? p = none) : (l1 ++ l2).find? p = l2.find? p := by
  induction l1 with
  | nil => rfl
  | cons x t ih =>
    have hx : p x = false := by
      cases hpx : p x
      · rfl
      · rw [List.find?_cons_of_pos t hpx] at h
        exact absurd h (by simp)
    rw [List.find?_cons_of_neg t (by simp [hx])] at h
    rw [List.cons_append, List.find?_cons_of_neg _ (by simp [hx])]
    exact ih h

/-- `djangoGet` succeeds exactly on singleton row lists. -/
theorem djangoGet_ok {α : Type} (l : List α) (r : α)
    (h : djangoGet l = .ok r) : l = [r] := by
  match l with
  | [] => simp [djangoGet] at h
  | [x] => simp [djangoGet] at h; rw [h]
  | x :: y :: t => simp [djangoGet] at h

/-- `djangoGet` raises `ObjectDoesNotExist` exactly on the empty list. -/
theorem djangoGet_dne {α : Type} (l : List α)
    (h : djangoGet l = .error .objectDoesNotExist) : l = [] := by
  match l with
  | [] => rfl
  | [x] => simp [djangoGet] at h
  | x :: y :: t => simp [djangoGet] at h

/-- `itemRowsFor` only looks at the kind's modifier table. -/
theorem itemRowsFor_congr (db db2 : DB) (k : ItemKind)
    (h : db2.modRows k = db.modRows k) (subId j : String) :
    itemRowsFor db2 k subId j = itemRowsFor db k subId j := by
  unfold itemRowsFor
  rw [h]

/-- `PkFresh` transports along equal tables and a grown counter. -/
theorem pkFresh_congr (db db2 : DB) (k : ItemKind)
    (hrows : db2.modRows k = db.modRows k)
    (hc : db.next_auto_id ≤ db2.next_auto_id) (h : PkFresh db k) :
    PkFresh db2 k := by
  constructor
  · intro x hx y hy
    rw [hrows] at hx hy
    exact h.1 x hx y hy
  · intro x hx
    rw [hrows] at hx
    exact lt_of_lt_of_le (h.2 x hx) hc

/-- Writing a table back to itself is the identity. -/
theorem setModRows_self (db : DB) (k : ItemKind) :
    db.setModRows k (db.modRows k) = db := by
  cases k <;> rfl

/-- A pointwise filter-invariant map preserves the filtered length. -/
theorem length_filter_map_pointwise {α : Type} (p : α → Bool) (f : α → α)
    (hp : ∀ s, p (f s) = p s) (l : List α) :
    ((l.map f).filter p).length = (l.filter p).length := by
  rw [List.filter_map, List.length_map]
  congr 1
  exact List.filter_congr (fun x _ => hp x)

/-- Replacing every id-matching subscription row with `R` makes `find?` on
that id return `R`, provided a match existed. -/
theorem sub_find_map_replace (R : SubRow) (rid : String) (hR : R.id = rid) :
    ∀ (l : List SubRow) (s0 : SubRow),
      l.find? (fun s => s.id = rid) = some s0 →
      ((l.map fun s => if s.id = rid then R else s).find?
        (fun s => s.id = rid)) = some R := by
  intro l
  induction l with
  | nil => intro s0 h; simp at h
  | cons x t ih =>
    intro s0 h
    by_cases hx : x.id = rid
    · rw [List.map_cons, if_pos hx]
      exact List.find?_cons_of_pos _ (by simp [hR])
    · rw [List.find?_cons_of_neg t (by simp [hx])] at h
      rw [List.map_cons, if_neg hx, List.find?_cons_of_neg _ (by simp [hx])]
      exact ih s0 h

/-- The id-replacement map on subscription rows is idempotent. -/
theorem sub_map_replace_idem (R : SubRow) (rid : String) (hR : R.id = rid)
    (l : List SubRow) :
    ((l.map fun s => if s.id = rid then R else s).map
      fun s => if s.id = rid then R else s) =
      l.map fun s => if s.id = rid then R else s := by
  rw [List.map_map]
  apply List.map_congr_left
  intro s _
  by_cases hs : s.id = rid
  · simp [Function.comp, hs, hR]
  · simp [Function.comp, hs]

/-- The customer sync touches only the customer table. -/
theorem customer_get_or_sync_frame (gw : Gateway) (db : DB) (cid : String) :
    EntityFrame db (customer_get_or_sync gw db cid).2.1 ∧
    (customer_get_or_sync gw db cid).2.1.addresses = db.addresses ∧
    (customer_get_or_sync gw db cid).2.1.credit_cards = db.credit_cards := by
  unfold customer_get_or_sync EntityFrame
  split
  · exact ⟨⟨rfl, rfl, rfl, rfl, rfl⟩, rfl, rfl⟩
  · split
    · exact ⟨⟨rfl, rfl, rfl, rfl, rfl⟩, rfl, rfl⟩
    · exact ⟨⟨rfl, rfl, rfl, rfl, rfl⟩, rfl, rfl⟩

/-- The address upsert touches only the address table. -/
theorem address_upsert_frame (db : DB) (ra : RemoteAddress) :
    EntityFrame db (address_update_or_create_from_remote_object db ra).2 ∧
    (address_update_or_create_from_remote_object db ra).2.customers =
      db.customers ∧
    (address_update_or_create_from_remote_object db ra).2.credit_cards =
      db.credit_cards := by
  unfold address_update_or_create_from_remote_object EntityFrame
  split
  · exact ⟨⟨rfl, rfl, rfl, rfl, rfl⟩, rfl, rfl⟩
  · exact ⟨⟨rfl, rfl, rfl, rfl, rfl⟩, rfl, rfl⟩

/-- The credit-card upsert touches only the credit-card table, appending the
returned row when the token was absent. -/
theorem upsertCreditCard_frame (db : DB) (t c : String) (b : Option String)
    (d : CCDefaults) :
    EntityFrame db (upsertCreditCard db t c b d).2 ∧
    (upsertCreditCard db t c b d).2.customers = db.customers ∧
    (upsertCreditCard db t c b d).2.addresses = db.addresses ∧
    (db.credit_cards.find? (fun cc => cc.token = t) = none →
      (upsertCreditCard db t c b d).2.credit_cards =
        db.credit_cards ++ [(upsertCreditCard db t c b d).1.1]) := by
  unfold upsertCreditCard EntityFrame
  split
  · rename_i x hx
    refine ⟨⟨rfl, rfl, rfl, rfl, rfl⟩, rfl, rfl, fun hnone => ?_⟩
    rw [hx] at hnone
    exact absurd hnone (by simp)
  · exact ⟨⟨rfl, rfl, rfl, rfl, rfl⟩, rfl, rfl, fun _ => rfl⟩

/-- `EntityFrame` composes. -/
theorem entityFrame_trans (d1 d2 d3 : DB) (h1 : EntityFrame d1 d2)
    (h2 : EntityFrame d2 d3) : EntityFrame d1 d3 := by
  obtain ⟨a1, b1, c1, e1, f1⟩ := h1
  obtain ⟨a2, b2, c2, e2, f2⟩ := h2
  exact ⟨a2.trans a1, b2.trans b1, c2.trans c1, e2.trans e1, f2.trans f1⟩

/-- A successful credit-card upsert from a remote object leaves the
subscription-side tables alone, returns the row keyed by the remote token,
and appends that row when the token was locally absent. -/
theorem cc_upsert_spec (gw : Gateway) (db : DB) (rcc : RemoteCreditCard)
    (pair : CCRow × Bool) (db2 : DB) (eff : List Effect)
    (h : credit_card_update_or_create_from_remote_object gw db rcc =
      (.ok pair, db2, eff)) :
    EntityFrame db db2 ∧ pair.1.token = rcc.token ∧
    (db.credit_cards.find? (fun c => c.token = rcc.token) = none →
      db2.credit_cards = db.credit_cards ++ [pair.1]) := by
  have htok := cc_upsert_ok_token gw db rcc pair db2 eff h
  unfold credit_card_update_or_create_from_remote_object at h
  rcases hc : customer_get_or_sync gw db rcc.customer_id with ⟨resC, dbC, effC⟩
  rw [hc] at h
  have hcf := customer_get_or_sync_frame gw db rcc.customer_id
  rw [hc] at hcf
  cases resC with
  | error e => simp at h
  | ok customer =>
    dsimp only at h
    cases hba : rcc.billing_address with
    | some ra =>
      rw [hba] at h
      dsimp only at h
      rcases had : address_update_or_create_from_remote_object dbC ra with
        ⟨⟨addr, cr⟩, dbAd⟩
      rw [had] at h
      dsimp only at h
      have haf := address_upsert_frame dbC ra
      rw [had] at haf
      rcases hup : upsertCreditCard dbAd rcc.token customer.id (some addr.id)
          rcc.defaults with ⟨pr, dbU⟩
      rw [hup] at h
      dsimp only at h
      have huf := upsertCreditCard_frame dbAd rcc.token customer.id
        (some addr.id) rcc.defaults
      rw [hup] at huf
      simp only [Prod.mk.injEq, Except.ok.injEq] at h
      obtain ⟨hpair, hdb2, heff⟩ := h
      subst hdb2
      refine ⟨entityFrame_trans db dbAd dbU
        (entityFrame_trans db dbC dbAd hcf.1 haf.1) huf.1, htok, ?_⟩
      intro hnone
      have hccs : dbAd.credit_cards = db.credit_cards := by
        rw [haf.2.2, hcf.2.2]
      have := huf.2.2.2 (by rw [hccs]; exact hnone)
      rw [this, hccs, ← hpair]
    | none =>
      rw [hba] at h
      dsimp only at h
      rcases hup : upsertCreditCard dbC rcc.token customer.id none
          rcc.defaults with ⟨pr, dbU⟩
      rw [hup] at h
      dsimp only at h
      have huf := upsertCreditCard_frame dbC rcc.token customer.id none
        rcc.defaults
      rw [hup] at huf
      simp only [Prod.mk.injEq, Except.ok.injEq] at h
      obtain ⟨hpair, hdb2, heff⟩ := h
      subst hdb2
      refine ⟨entityFrame_trans db dbC dbU hcf.1 huf.1, htok, ?_⟩
      intro hnone
      have := huf.2.2.2 (by rw [hcf.2.2]; exact hnone)
      rw [this, hcf.2.2, ← hpair]

/-- A successful `get_or_sync` leaves the subscription-side tables alone and
leaves the returned row findable under the requested token (assuming the
gateway returns cards under their own token). -/
theorem cc_get_or_sync_spec (gw : Gateway) (db : DB) (t : String)
    (cc : CCRow) (dbA : DB) (effA : List Effect)
    (hgwcc : ∀ t0 rcc, gw.credit_card_find t0 = some rcc → rcc.token = t0)
    (h : credit_card_get_or_sync gw db t = (.ok cc, dbA, effA)) :
    dbA.credit_cards.find? (fun c => c.token = t) = some cc ∧
    EntityFrame db dbA := by
  unfold credit_card_get_or_sync at h
  split at h
  · rename_i row hfind
    simp only [Prod.mk.injEq, Except.ok.injEq] at h
    obtain ⟨h1, h2, h3⟩ := h
    subst h2
    rw [hfind, h1]
    exact ⟨rfl, rfl, rfl, rfl, rfl, rfl⟩
  · rename_i hnone
    unfold credit_card_update_or_create_from_sync at h
    split at h
    · simp at h
    · rename_i row created db' effX hsync
      split at hsync
      · simp at hsync
      · rename_i rcc hgw
        have htok : rcc.token = t := hgwcc t rcc hgw
        rcases hup : credit_card_update_or_create_from_remote_object gw db rcc
          with ⟨res, dbU, effU⟩
        rw [hup] at hsync
        dsimp only at hsync
        cases res with
        | error e => simp at hsync
        | ok pair =>
          simp only [Prod.mk.injEq, Except.ok.injEq] at hsync
          obtain ⟨hpair, hdbU, heffU⟩ := hsync
          simp only [Prod.mk.injEq, Except.ok.injEq] at h
          obtain ⟨hrow, hdbA, heffA⟩ := h
          rw [hdbU, hdbA] at hup
          have hspec := cc_upsert_spec gw db rcc pair dbA effU hup
          have happ : dbA.credit_cards = db.credit_cards ++ [pair.1] := by
            apply hspec.2.2
            rw [htok]
            exact hnone
          have hcc : pair.1 = cc := by
            have h1 := congrArg Prod.fst hpair
            simp only at h1
            rw [h1]
            exact hrow
          refine ⟨?_, hspec.1⟩
          rw [happ, find?_append_none db.credit_cards [pair.1] _ hnone, ← hcc]
          apply List.find?_cons_of_pos
          simp [hspec.2.1, htok]

/-- The subscription upsert touches only the subscription table. -/
theorem upsertSubscription_frame (db : DB) (r : RemoteSubscription)
    (t p : String) :
    (upsertSubscription db r t p).2.plans = db.plans ∧
    (upsertSubscription db r t p).2.customers = db.customers ∧
    (upsertSubscription db r t p).2.addresses = db.addresses ∧
    (upsertSubscription db r t p).2.credit_cards = db.credit_cards ∧
    (upsertSubscription db r t p).2.subscription_add_ons =
      db.subscription_add_ons ∧
    (upsertSubscription db r t p).2.subscription_discounts =
      db.subscription_discounts ∧
    (upsertSubscription db r t p).2.next_auto_id = db.next_auto_id := by
  unfold upsertSubscription
  split
  · exact ⟨rfl, rfl, rfl, rfl, rfl, rfl, rfl⟩
  · exact ⟨rfl, rfl, rfl, rfl, rfl, rfl, rfl⟩

/-- The subscription upsert: the returned instance is the written row, after
it the table carries exactly one row with the remote identifier, and
repeating the upsert on any database carrying the same subscription table is
a no-op returning `(row, False)`. -/
theorem upsertSubscription_stable (db : DB) (r : RemoteSubscription)
    (t p : String)
    (hsubu : (db.subscriptions.filter (fun s => s.id = r.id)).length ≤ 1) :
    (upsertSubscription db r t p).1.1 = subRowOf r t p ∧
    (((upsertSubscription db r t p).2.subscriptions.filter
      (fun s => s.id = r.id)).length = 1) ∧
    (∀ dbX : DB,
      dbX.subscriptions = (upsertSubscription db r t p).2.subscriptions →
      upsertSubscription dbX r t p = ((subRowOf r t p, false), dbX)) := by
  have hRid : (subRowOf r t p).id = r.id := rfl
  cases hf : db.subscriptions.find? (fun s => s.id = r.id) with
  | some s0 =>
    have hps0 := @List.find?_some SubRow (fun s => decide (s.id = r.id)) s0
      db.subscriptions hf
    have hmem : s0 ∈ db.subscriptions.filter (fun s => s.id = r.id) :=
      List.mem_filter.mpr ⟨List.mem_of_find?_eq_some hf, hps0⟩
    have hlen1 : (db.subscriptions.filter (fun s => s.id = r.id)).length = 1 := by
      have := List.length_pos_of_mem hmem
      omega
    have hpoint : ∀ s : SubRow,
        ((fun s => decide (s.id = r.id))
          (if s.id = r.id then subRowOf r t p else s)) =
        ((fun s => decide (s.id = r.id)) s) := by
      intro s
      by_cases hs : s.id = r.id
      · simp [hs, hRid]
      · simp [hs]
    refine ⟨?_, ?_, ?_⟩
    · simp only [upsertSubscription, hf]
    · simp only [upsertSubscription, hf]
      rw [length_filter_map_pointwise _ _ hpoint, hlen1]
    · intro dbX hX
      simp only [upsertSubscription, hf] at hX
      simp only [upsertSubscription]
      rw [hX, sub_find_map_replace (subRowOf r t p) r.id hRid
        db.subscriptions s0 hf]
      rw [sub_map_replace_idem (subRowOf r t p) r.id hRid db.subscriptions,
        ← hX]
  | none =>
    have hall : ∀ s ∈ db.subscriptions, ¬(s.id = r.id) := by
      intro s hs
      have := List.find?_eq_none.mp hf s hs
      simpa using this
    have hfilnil : db.subscriptions.filter (fun s => s.id = r.id) = [] := by
      rw [List.filter_eq_nil_iff]
      intro s hs
      simpa using hall s hs
    have hmapid : (db.subscriptions.map
        fun s => if s.id = r.id then subRowOf r t p else s) =
        db.subscriptions := by
      have : ∀ s ∈ db.subscriptions,
          (if s.id = r.id then subRowOf r t p else s) = id s := by
        intro s hs
        simp [hall s hs]
      rw [List.map_congr_left this, List.map_id]
    refine ⟨?_, ?_, ?_⟩
    · simp only [upsertSubscription, hf]
    · simp only [upsertSubscription, hf]
      rw [List.filter_append, hfilnil]
      simp [hRid]
    · intro dbX hX
      simp only [upsertSubscription, hf] at hX
      simp only [upsertSubscription]
      rw [hX, find?_append_none db.subscriptions [subRowOf r t p] _ hf,
        List.find?_cons_of_pos _ (by simp [hRid])]
      rw [List.map_append, hmapid, List.map_cons]
      simp only [hRid, if_true, List.map_nil, ← hX]

/-- Writing one modifier table leaves the other one alone. -/
theorem modRows_setModRows_other (db : DB) (k k2 : ItemKind) (h : k2 ≠ k)
    (rows : List ModRow) :
    (db.setModRows k rows).modRows k2 = db.modRows k2 := by
  cases k <;> cases k2 <;> first | rfl | exact absurd rfl h

/-- Writing a modifier table leaves the entity tables and counter alone. -/
theorem setModRows_frame (db : DB) (k : ItemKind) (rows : List ModRow) :
    (db.setModRows k rows).plans = db.plans ∧
    (db.setModRows k rows).customers = db.customers ∧
    (db.setModRows k rows).addresses = db.addresses ∧
    (db.setModRows k rows).credit_cards = db.credit_cards ∧
    (db.setModRows k rows).subscriptions = db.subscriptions := by
  cases k <;> exact ⟨rfl, rfl, rfl, rfl, rfl⟩

/-- One modifier upsert of the sync loop, on a fresh-keyed table: it leaves
the item mirrored by exactly one row, leaves other items' rows and the other
tables alone, grows the counter, and keeps keys fresh. -/
theorem modifier_upsert_spec (db : DB) (k : ItemKind) (subId : String)
    (m : RemoteModifier) (db2 : DB) (hf : PkFresh db k)
    (h : modifier_update_or_create db k subId m = (.ok (), db2)) :
    SyncedRow db2 k subId m ∧
    (∀ j, j ≠ m.id → itemRowsFor db2 k subId j = itemRowsFor db k subId j) ∧
    PkFresh db2 k ∧
    db.next_auto_id ≤ db2.next_auto_id ∧
    (∀ k2, k2 ≠ k → db2.modRows k2 = db.modRows k2) ∧
    SyncFrame db db2 := by
  unfold modifier_update_or_create at h
  split at h
  · -- the row existed: in-place field update
    rename_i row hget
    have hL : itemRowsFor db k subId m.id = [row] := djangoGet_ok _ row hget
    have hrfil : row ∈ (db.modRows k).filter
        (fun x => x.subscription = subId && x.item = m.id) := by
      have hmem : row ∈ itemRowsFor db k subId m.id := by
        rw [hL]
        exact List.mem_cons_self row []
      unfold itemRowsFor at hmem
      exact hmem
    have hrmem := (List.mem_filter.mp hrfil).1
    have hpred := (List.mem_filter.mp hrfil).2
    have hsub : row.subscription = subId :=
      of_decide_eq_true ((Bool.and_eq_true _ _).mp hpred).1
    have hitem : row.item = m.id :=
      of_decide_eq_true ((Bool.and_eq_true _ _).mp hpred).2
    dsimp only at h
    simp only [Prod.mk.injEq, true_and] at h
    subst h
    have hrow' : ({ row with
        amount := m.amount
        current_billing_cycle := m.current_billing_cycle
        name := m.name
        never_expires := m.never_expires
        number_of_billing_cycles := m.number_of_billing_cycles
        quantity := m.quantity } : ModRow) = modRowOf subId m row.pk := by
      unfold modRowOf
      rw [hsub, hitem]
    refine ⟨?_, ?_, ?_, ?_, ?_, ?_⟩
    · refine ⟨row.pk, ?_⟩
      unfold itemRowsFor
      rw [modRows_setModRows, ← hrow']
      apply filter_map_replace_self _ row _ _ _
        (fun x hx hpk => hf.1 x hx row hrmem hpk) hL
      simp [hsub, hitem]
    · intro j hj
      unfold itemRowsFor
      rw [modRows_setModRows]
      apply filter_map_replace_other
      · simp only [Bool.and_eq_false_iff]
        right
        simp [hitem, Ne.symm hj]
      · simp only [Bool.and_eq_false_iff]
        right
        simp [hitem, Ne.symm hj]
      · exact fun x hx hpk => hf.1 x hx row hrmem hpk
    · constructor
      · intro x hx y hy hxy
        rw [modRows_setModRows] at hx hy
        obtain ⟨x0, hx0, hfx⟩ := List.mem_map.mp hx
        obtain ⟨y0, hy0, hfy⟩ := List.mem_map.mp hy
        have hpk_eq : ∀ z : ModRow,
            (if z.pk = row.pk then { row with
              amount := m.amount
              current_billing_cycle := m.current_billing_cycle
              name := m.name
              never_expires := m.never_expires
              number_of_billing_cycles := m.number_of_billing_cycles
              quantity := m.quantity } else z).pk = z.pk := by
          intro z
          by_cases hz : z.pk = row.pk
          · simp [hz]
          · simp [hz]
        have hx0y0 : x0 = y0 := by
          apply hf.1 x0 hx0 y0 hy0
          have h1 := hpk_eq x0
          have h2 := hpk_eq y0
          rw [hfx] at h1
          rw [hfy] at h2
          omega
        rw [← hfx, ← hfy, hx0y0]
      · intro x hx
        rw [modRows_setModRows] at hx
        obtain ⟨x0, hx0, hfx⟩ := List.mem_map.mp hx
        have hb := hf.2 x0 hx0
        rw [next_setModRows]
        by_cases hz : x0.pk = row.pk
        · rw [← hfx]
          simp only [hz, if_true]
          have := hf.2 row hrmem
          simpa using this
        · rw [← hfx]
          simp only [hz, if_false]
          exact hb
    · rw [next_setModRows]
    · intro k2 hk2
      exact modRows_setModRows_other db k k2 hk2 _
    · have := setModRows_frame db k ((db.modRows k).map fun x =>
        if x.pk = row.pk then { row with
          amount := m.amount
          current_billing_cycle := m.current_billing_cycle
          name := m.name
          never_expires := m.never_expires
          number_of_billing_cycles := m.number_of_billing_cycles
          quantity := m.quantity } else x)
      exact ⟨this.1, this.2.1, this.2.2.1, this.2.2.2.1, this.2.2.2.2⟩
  · -- no row yet: create with the next auto key
    rename_i hget
    have hL : itemRowsFor db k subId m.id = [] := djangoGet_dne _ hget
    dsimp only at h
    simp only [Prod.mk.injEq, true_and] at h
    subst h
    refine ⟨?_, ?_, ?_, ?_, ?_, ?_⟩
    · refine ⟨db.next_auto_id, ?_⟩
      unfold itemRowsFor at hL ⊢
      rw [modRows_set_next, modRows_setModRows, List.filter_append, hL]
      simp [modRowOf]
    · intro j hj
      unfold itemRowsFor
      rw [modRows_set_next, modRows_setModRows, List.filter_append]
      have hone : List.filter (fun x => x.subscription = subId && x.item = j)
          [modRowOf subId m db.next_auto_id] = [] := by
        simp [modRowOf, Ne.symm hj]
      rw [hone, List.append_nil]
    · constructor
      · intro x hx y hy hxy
        rw [modRows_set_next, modRows_setModRows] at hx hy
        rcases List.mem_append.mp hx with hx1 | hx1 <;>
          rcases List.mem_append.mp hy with hy1 | hy1
        · exact hf.1 x hx1 y hy1 hxy
        · exfalso
          have h1 : x.pk < db.next_auto_id := hf.2 x hx1
          have h2 : y = modRowOf subId m db.next_auto_id := by simpa using hy1
          rw [h2] at hxy
          simp [modRowOf] at hxy
          omega
        · exfalso
          have h1 : y.pk < db.next_auto_id := hf.2 y hy1
          have h2 : x = modRowOf subId m db.next_auto_id := by simpa using hx1
          rw [h2] at hxy
          simp [modRowOf] at hxy
          omega
        · have h2 : x = modRowOf subId m db.next_auto_id := by simpa using hx1
          have h3 : y = modRowOf subId m db.next_auto_id := by simpa using hy1
          rw [h2, h3]
      · intro x hx
        rw [modRows_set_next, modRows_setModRows] at hx
        rcases List.mem_append.mp hx with hx1 | hx1
        · have := hf.2 x hx1
          simp only [DB.next_auto_id]
          omega
        · have h2 : x = modRowOf subId m db.next_auto_id := by simpa using hx1
          rw [h2]
          simp [modRowOf]
    · simp only [DB.next_auto_id]
      omega
    · intro k2 hk2
      have h1 : ∀ db0 : DB, ∀ n : Nat,
          ({ db0 with next_auto_id := n } : DB).modRows k2 = db0.modRows k2 :=
        fun db0 n => modRows_set_next db0 k2 n
      rw [h1]
      exact modRows_setModRows_other db k k2 hk2 _
    · have hs := setModRows_frame db k
        (db.modRows k ++ [modRowOf subId m db.next_auto_id])
      exact ⟨hs.1, hs.2.1, hs.2.2.1, hs.2.2.2.1, hs.2.2.2.2⟩
  · simp at h

/-- `SyncFrame` composes. -/
theorem syncFrame_trans (d1 d2 d3 : DB) (h1 : SyncFrame d1 d2)
    (h2 : SyncFrame d2 d3) : SyncFrame d1 d3 := by
  obtain ⟨a1, b1, c1, e1, f1⟩ := h1
  obtain ⟨a2, b2, c2, e2, f2⟩ := h2
  exact ⟨a2.trans a1, b2.trans b1, c2.trans c1, e2.trans e1, f2.trans f1⟩

/-- The whole modifier loop of the sync, on a fresh-keyed table and a
duplicate-free payload: afterwards every payload modifier is mirrored by
exactly one row, other items' rows and the other tables are untouched, the
counter has grown, and keys stay fresh. -/
theorem syncModifiers_spec (k : ItemKind) (subId : String) :
    ∀ (ms : List RemoteModifier) (db db2 : DB),
      syncModifiers db k subId ms = (.ok (), db2) →
      PkFresh db k →
      (ms.map (fun m => m.id)).Nodup →
      (∀ m ∈ ms, SyncedRow db2 k subId m) ∧
      (∀ j, j ∉ ms.map (fun m => m.id) →
        itemRowsFor db2 k subId j = itemRowsFor db k subId j) ∧
      PkFresh db2 k ∧
      db.next_auto_id ≤ db2.next_auto_id ∧
      (∀ k2, k2 ≠ k → db2.modRows k2 = db.modRows k2) ∧
      SyncFrame db db2 := by
  intro ms
  induction ms with
  | nil =>
    intro db db2 h hf _
    simp only [syncModifiers, Prod.mk.injEq, true_and] at h
    subst h
    exact ⟨by simp, fun j _ => rfl, hf, le_refl _,
      fun k2 _ => rfl, rfl, rfl, rfl, rfl, rfl⟩
  | cons m rest ih =>
    intro db db2 h hf hnd
    simp only [syncModifiers] at h
    rcases hm : modifier_update_or_create db k subId m with ⟨resM, dbM⟩
    rw [hm] at h
    cases resM with
    | error e => simp at h
    | ok u =>
      cases u
      dsimp only at h
      have hnd2 :
          m.id ∉ rest.map (fun m2 => m2.id) ∧
            (rest.map (fun m2 => m2.id)).Nodup := by
        rw [List.map_cons] at hnd
        exact List.nodup_cons.mp hnd
      have hmid := hnd2.1
      have hndrest := hnd2.2
      obtain ⟨hsyn, hother, hfM, hcM, hkM, hframeM⟩ :=
        modifier_upsert_spec db k subId m dbM hf hm
      obtain ⟨ihsyn, ihother, ihf, ihc, ihk, ihframe⟩ :=
        ih dbM db2 h hfM hndrest
      refine ⟨?_, ?_, ihf, le_trans hcM ihc, ?_, syncFrame_trans db dbM db2
        hframeM ihframe⟩
      · intro m2 hm2
        rcases List.mem_cons.mp hm2 with hm2 | hm2
        · subst hm2
          obtain ⟨pk0, hpk0⟩ := hsyn
          refine ⟨pk0, ?_⟩
          rw [ihother m2.id hmid, hpk0]
        · exact ihsyn m2 hm2
      · intro j hj
        have hj1 : j ≠ m.id := by
          intro hjeq
          apply hj
          simp [hjeq]
        have hj2 : j ∉ rest.map (fun m2 => m2.id) := by
          intro hjin
          apply hj
          simp only [List.map_cons, List.mem_cons]
          exact Or.inr hjin
        rw [ihother j hj2, hother j hj1]
      · intro k2 hk2
        rw [ihk k2 hk2, hkM k2 hk2]

/-- Replaying the modifier loop on a state that already mirrors every
payload modifier is an exact no-op: each `update_or_create` finds the row
and rewrites it with its own values. -/
theorem syncModifiers_replay (k : ItemKind) (subId : String) :
    ∀ (ms : List RemoteModifier) (db : DB),
      (∀ m ∈ ms, SyncedRow db k subId m) →
      (∀ x ∈ db.modRows k, ∀ y ∈ db.modRows k, x.pk = y.pk → x = y) →
      syncModifiers db k subId ms = (.ok (), db) := by
  intro ms
  induction ms with
  | nil => intro db _ _; rfl
  | cons m rest ih =>
    intro db hsyn hinj
    obtain ⟨pk0, hL⟩ := hsyn m (List.mem_cons_self m rest)
    have hcan_mem : modRowOf subId m pk0 ∈ db.modRows k := by
      have hmem : modRowOf subId m pk0 ∈ itemRowsFor db k subId m.id := by
        rw [hL]
        exact List.mem_cons_self _ []
      unfold itemRowsFor at hmem
      exact (List.mem_filter.mp hmem).1
    have hget : djangoGet (itemRowsFor db k subId m.id) =
        .ok (modRowOf subId m pk0) := by
      rw [hL]
      rfl
    have hstep : modifier_update_or_create db k subId m = (.ok (), db) := by
      unfold modifier_update_or_create
      rw [hget]
      dsimp only
      congr 1
      trans db.setModRows k (db.modRows k)
      · congr 1
        refine ((List.map_congr_left ?_).trans (List.map_id _) : _)
        intro x hx
        by_cases hp : x.pk = pk0
        · rw [if_pos (show x.pk = (modRowOf subId m pk0).pk from hp)]
          have hxeq : x = modRowOf subId m pk0 := hinj x hx _ hcan_mem hp
          rw [hxeq]
          rfl
        · rw [if_neg (show ¬x.pk = (modRowOf subId m pk0).pk from hp)]
          rfl
      · exact setModRows_self db k
    simp only [syncModifiers, hstep]
    exact ih db (fun m2 hm2 => hsyn m2 (List.mem_cons_of_mem m hm2)) hinj

/-- The two modifier tables selected by field equalities. -/
theorem modRows_ext (db db2 : DB)
    (ha : db2.subscription_add_ons = db.subscription_add_ons)
    (hd : db2.subscription_discounts = db.subscription_discounts)
    (k : ItemKind) : db2.modRows k = db.modRows k := by
  cases k
  · exact ha
  · exact hd

/-- Replaying the whole `try` block of the subscription sync on its own
output is an exact no-op returning `(instance, False)`; afterwards the
subscription table carries exactly one row with the remote identifier, and
the entity tables of the credit-card side are untouched. -/
theorem subscription_sync_try_stable (db : DB) (r : RemoteSubscription)
    (t : String) (pair : SubRow × Bool) (db1 : DB)
    (hsubu : (db.subscriptions.filter (fun s => s.id = r.id)).length ≤ 1)
    (hfa : PkFresh db .addOn) (hfd : PkFresh db .discount)
    (hna : (r.add_ons.map (fun m => m.id)).Nodup)
    (hnd : (r.discounts.map (fun m => m.id)).Nodup)
    (h : subscription_sync_try db r t = (.ok pair, db1)) :
    subscription_sync_try db1 r t = (.ok (pair.1, false), db1) ∧
    ((db1.subscriptions.filter (fun s => s.id = r.id)).length = 1) ∧
    db1.plans = db.plans ∧ db1.customers = db.customers ∧
    db1.addresses = db.addresses ∧ db1.credit_cards = db.credit_cards := by
  unfold subscription_sync_try at h
  split at h
  · simp at h
  · rename_i plan hplan
    rcases hup : upsertSubscription db r t plan.id with ⟨⟨inst, created⟩, dbS⟩
    rw [hup] at h
    dsimp only at h
    rcases hA : syncModifiers dbS .addOn inst.id r.add_ons with ⟨resA, dbA⟩
    rw [hA] at h
    cases resA with
    | error e => simp at h
    | ok uA =>
      cases uA
      dsimp only at h
      rcases hD : syncModifiers dbA .discount inst.id r.discounts with
        ⟨resD, dbD⟩
      rw [hD] at h
      cases resD with
      | error e => simp at h
      | ok uD =>
        cases uD
        dsimp only at h
        simp only [Prod.mk.injEq, Except.ok.injEq] at h
        obtain ⟨hpair, hdb1⟩ := h
        subst hdb1
        have hust := upsertSubscription_stable db r t plan.id hsubu
        rw [hup] at hust
        dsimp only at hust
        obtain ⟨hinst, hcount, hstable⟩ := hust
        have hufr := upsertSubscription_frame db r t plan.id
        rw [hup] at hufr
        dsimp only at hufr
        have hrowsS : ∀ k, dbS.modRows k = db.modRows k :=
          modRows_ext db dbS hufr.2.2.2.2.1 hufr.2.2.2.2.2.1
        have hnextS : dbS.next_auto_id = db.next_auto_id :=
          hufr.2.2.2.2.2.2
        have hfaS : PkFresh dbS .addOn :=
          pkFresh_congr db dbS .addOn (hrowsS .addOn)
            (le_of_eq hnextS.symm) hfa
        obtain ⟨hsynA, hotherA, hfA, hcA, hkA, hframeA⟩ :=
          syncModifiers_spec .addOn inst.id r.add_ons dbS dbA hA hfaS hna
        have hfdS : PkFresh dbS .discount :=
          pkFresh_congr db dbS .discount (hrowsS .discount)
            (le_of_eq hnextS.symm) hfd
        have hfdA : PkFresh dbA .discount :=
          pkFresh_congr dbS dbA .discount (hkA .discount (by decide)) hcA hfdS
        obtain ⟨hsynD, hotherD, hfD, hcD, hkD, hframeD⟩ :=
          syncModifiers_spec .discount inst.id r.discounts dbA dbD hD hfdA hnd
        have hsubsDS : dbD.subscriptions = dbS.subscriptions := by
          rw [hframeD.2.2.2.2, hframeA.2.2.2.2]
        have hplansD : dbD.plans = db.plans := by
          rw [hframeD.1, hframeA.1, hufr.1]
        have haddD : dbD.modRows .addOn = dbA.modRows .addOn :=
          hkD .addOn (by decide)
        have hfAD : PkFresh dbD .addOn :=
          pkFresh_congr dbA dbD .addOn haddD hcD hfA
        refine ⟨?_, ?_, hplansD, ?_, ?_, ?_⟩
        · unfold subscription_sync_try
          rw [hplansD, hplan]
          dsimp only
          have hstab1 := hstable dbD hsubsDS
          rw [hstab1, ← hinst]
          dsimp only
          have hreplayA : syncModifiers dbD .addOn inst.id r.add_ons =
              (.ok (), dbD) := by
            apply syncModifiers_replay
            · intro m2 hm2
              obtain ⟨pk0, hpk0⟩ := hsynA m2 hm2
              exact ⟨pk0, by rw [itemRowsFor_congr dbA dbD .addOn haddD, hpk0]⟩
            · exact hfAD.1
          rw [hreplayA]
          dsimp only
          have hreplayD : syncModifiers dbD .discount inst.id r.discounts =
              (.ok (), dbD) := by
            apply syncModifiers_replay
            · exact hsynD
            · exact hfD.1
          rw [hreplayD]
          dsimp only
          have hp1 : pair.1 = inst := by
            rw [← hpair]
          rw [hp1]
        · rw [hsubsDS]
          exact hcount
        · rw [hframeD.2.1, hframeA.2.1, hufr.2.1]
        · rw [hframeD.2.2.1, hframeA.2.2.1, hufr.2.2.1]
        · rw [hframeD.2.2.2.1, hframeA.2.2.2.1, hufr.2.2.2.1]

/-- C3, counterexample: as stated, the claim fails — the plan foreign key is
not resolved recursively, so syncing a payload whose plan is locally absent
produces no row at all.  On `dbNoPlan` (credit card present, plan table
empty), two syncs of `rsub1` leave zero subscription rows keyed `s1`, not
one. -/
theorem c3_sync_without_plan_creates_nothing :
    (let out1 := subscription_update_or_create_from_remote_object gwOk
        dbNoPlan rsub1
     let out2 := subscription_update_or_create_from_remote_object gwOk
        out1.2.1 rsub1
     (out2.2.1.subscriptions.filter (fun s => s.id = rsub1.id)).length) = 0 := by
  rfl

/-- C3 (amended): idempotent upsert holds for payloads the sync can resolve.
For a gateway returning credit cards under their own token, a consistent
database (at most one subscription row per identifier, fresh join-row keys)
and a payload without duplicated modifier ids, if the first
`update_or_create_from_remote_object` returns a pair, then the subscription
table carries exactly one row keyed `r.id`, and the second call returns the
same instance (with `created = False`) leaving the entire database exactly
as the first call left it. -/
theorem c3_idempotent_upsert (gw : Gateway) (db : DB)
    (r : RemoteSubscription) (pair : SubRow × Bool) (db1 : DB)
    (eff1 : List Effect)
    (hgwcc : ∀ t0 rcc, gw.credit_card_find t0 = some rcc → rcc.token = t0)
    (hsubu : (db.subscriptions.filter (fun s => s.id = r.id)).length ≤ 1)
    (hfa : PkFresh db .addOn) (hfd : PkFresh db .discount)
    (hna : (r.add_ons.map (fun m => m.id)).Nodup)
    (hnd : (r.discounts.map (fun m => m.id)).Nodup)
    (h1 : subscription_update_or_create_from_remote_object gw db r =
      (.ok (some pair), db1, eff1)) :
    ((db1.subscriptions.filter (fun s => s.id = r.id)).length = 1) ∧
    subscription_update_or_create_from_remote_object gw db1 r =
      (.ok (some (pair.1, false)), db1, []) := by
  unfold subscription_update_or_create_from_remote_object at h1
  rcases hcc : credit_card_get_or_sync gw db r.payment_method_token with
    ⟨resC, dbC, effC⟩
  rw [hcc] at h1
  cases resC with
  | error e => simp at h1
  | ok cc =>
    dsimp only at h1
    rcases htry : subscription_sync_try dbC r cc.token with ⟨resT, dbT⟩
    rw [htry] at h1
    cases resT with
    | error e => simp at h1
    | ok pr =>
      dsimp only at h1
      simp only [Prod.mk.injEq, Except.ok.injEq, Option.some.injEq] at h1
      obtain ⟨hpr, hdbT, heff⟩ := h1
      rw [hpr] at htry
      rw [hdbT] at htry
      obtain ⟨hfind, hframe⟩ := cc_get_or_sync_spec gw db
        r.payment_method_token cc dbC effC hgwcc hcc
      obtain ⟨hplans, hsubs, haddons, hdiscs, hnext⟩ := hframe
      have hsubuC :
          (dbC.subscriptions.filter (fun s => s.id = r.id)).length ≤ 1 := by
        rw [hsubs]
        exact hsubu
      have hfaC : PkFresh dbC .addOn :=
        pkFresh_congr db dbC .addOn (modRows_ext db dbC haddons hdiscs .addOn)
          (le_of_eq hnext.symm) hfa
      have hfdC : PkFresh dbC .discount :=
        pkFresh_congr db dbC .discount
          (modRows_ext db dbC haddons hdiscs .discount)
          (le_of_eq hnext.symm) hfd
      obtain ⟨hreplay, hcount, hplans1, hcust1, haddr1, hccs1⟩ :=
        subscription_sync_try_stable dbC r cc.token pair db1 hsubuC hfaC
          hfdC hna hnd htry
      refine ⟨hcount, ?_⟩
      unfold subscription_update_or_create_from_remote_object
      have hfind1 : db1.credit_cards.find?
          (fun c => c.token = r.payment_method_token) = some cc := by
        rw [hccs1]
        exact hfind
      have hgos : credit_card_get_or_sync gw db1 r.payment_method_token =
          (.ok cc, db1, []) := by
        unfold credit_card_get_or_sync
        rw [hfind1]
      rw [hgos]
      dsimp only
      rw [hreplay]

/-- C3 witness: syncing `rsub1` twice on the fresh state — the first call
creates the subscription row and its join row; the second returns the same
instance with `created = False` and changes nothing. -/
theorem c3_idempotent_upsert_witness :
    subscription_update_or_create_from_remote_object gwOk dbFresh rsub1 =
      (.ok (some (sub1, true)), dbF1, []) ∧
    (((dbF1.subscriptions.filter (fun s => s.id = rsub1.id)).length = 1) ∧
      subscription_update_or_create_from_remote_object gwOk dbF1 rsub1 =
        (.ok (some (sub1, false)), dbF1, [])) :=
  ⟨by rfl,
    c3_idempotent_upsert gwOk dbFresh rsub1 (sub1, true) dbF1 []
      (fun t0 rcc h => nomatch h) (by decide)
      ⟨fun x hx => by simp [DB.modRows, dbFresh, db1] at hx,
       fun x hx => by simp [DB.modRows, dbFresh, db1] at hx⟩
      ⟨fun x hx => by simp [DB.modRows, dbFresh, db1] at hx,
       fun x hx => by simp [DB.modRows, dbFresh, db1] at hx⟩
      (by decide) (by decide) (by rfl)⟩

end BT
